import Mathlib

/-!
Spotrod: the CPython/numpy boundary layer (spotrod-python-wrapper.c).

A shallow embedding of the four wrapper functions of the extension module
(integratetransit, elements, circleangle, ellipseangle).

Modelling conventions.

* An ndarray object is its header: the data pointer, the dimension vector
  (whose length is the number of dimensions) and the numpy type number.
  The element values live behind the data pointer; no wrapper reads them.
* A C double is kept as an uninterpreted 64-bit pattern: the wrappers copy
  doubles, they never compute with them.
* npy_intp is a 64-bit signed integer and int a 32-bit one (LP64); the
  conversion npy_intp to int keeps a representable value and wraps any other
  modulo 2^32.
* The calls a wrapper makes into the numeric core, and the arrays it creates,
  are recorded in order in the trace of the world.
* The numpy and CPython services that can fail for reasons outside the call
  (conversion, allocation of a new array, construction of the result tuple)
  are answered by an environment, which may refuse any of them.
* Reference counting is not modelled.
-/

namespace Spotrod

/-! ## Data model -/

/-- A C double, represented by its IEEE-754 bit pattern. -/
structure Double where
  bits : Nat
deriving DecidableEq, Repr

/-- The numpy type number of C double (enumerator NPY_DOUBLE of NPY_TYPES). -/
def NPY_DOUBLE : Int := 12

/-- The pre-1.7 spelling of NPY_DOUBLE used by the checks of the wrappers. -/
def PyArray_DOUBLE : Int := NPY_DOUBLE

/-- The header of a numpy ndarray. -/
structure PyArrayObject where
  /-- Address of the first element. -/
  data : Nat
  /-- The shape, one npy_intp per dimension; nd is its length. -/
  dimensions : List Nat
  /-- Element type number, descr->type_num. -/
  type_num : Int
deriving DecidableEq, Repr

/-- The macro PyArray_NDIM: the number of dimensions. -/
def PyArray_NDIM (o : PyArrayObject) : Int := (o.dimensions.length : Int)

/-- The macro PyArray_TYPE: the element type number. -/
def PyArray_TYPE (o : PyArrayObject) : Int := o.type_num

/-- The macro PyArray_DATA: the data pointer. -/
def PyArray_DATA (o : PyArrayObject) : Nat := o.data

/-- Ways in which an execution leaves the behaviour defined by C. -/
inductive UB where
  /-- A read of dimensions[i] with i not below nd. -/
  | dimOutOfRange
  /-- A member access through a NULL pointer. -/
  | nullDeref
deriving DecidableEq, Repr

/-- The macro PyArray_DIM(o, i): the read dimensions[i], defined only for i below nd. -/
def PyArray_DIM (o : PyArrayObject) (i : Nat) : Except UB Int :=
  match o.dimensions.get? i with
  | some d => Except.ok (d : Int)
  | none => Except.error UB.dimOutOfRange

/-- Largest value of a C int. -/
def INT_MAX : Int := 2147483647

/-- Conversion of an npy_intp value to a 32-bit C int: a value that int can
represent is unchanged, any other value wraps around modulo 2^32. -/
def toCInt (x : Int) : Int :=
  if -2147483648 ≤ x ∧ x ≤ 2147483647 then x
  else (x + 2147483648) % 4294967296 - 2147483648

/-- One entry of the trace: an array creation or a call into the numeric core,
with the arguments in the order of the C prototype. -/
inductive Event where
  | newArray (a : PyArrayObject)
  | integratetransit (m n k : Int) (planetx planety z : Nat) (p ootflux0 : Double)
      (r f spotx spoty spotradius spotcontrast planetangle answer : Nat)
  | elements (deltaT : Nat) (period a k h : Double) (n : Int) (eta xi : Nat)
  | circleangle (r : Nat) (p z : Double) (n : Int) (answer : Nat)
  | ellipseangle (r : Nat) (a z : Double) (n : Int) (answer : Nat)
deriving DecidableEq, Repr

/-- The part of the process state the wrappers act on. -/
structure World where
  /-- The next unused address. -/
  next : Nat
  /-- Array creations and core calls so far, oldest first. -/
  trace : List Event
deriving DecidableEq, Repr

/-- What a wrapper call results in. -/
inductive Outcome (α : Type) where
  /-- A new reference to the result is returned. -/
  | ok (v : α)
  /-- PyErr_SetString(PyExc_ValueError, msg) followed by return NULL. -/
  | valueError (msg : String)
  /-- The return NULL taken when PyArray_FROM_OTF gave NULL; numpy's exception is pending. -/
  | conversionError
  /-- The return NULL of elements_wrapper when Py_BuildValue gave NULL, after the core
  has run; the exception of Py_BuildValue is pending. -/
  | buildError
  /-- The execution is not defined by C. -/
  | undefined (why : UB)
deriving DecidableEq, Repr

/-- The errors raised at the boundary, ahead of any array creation: a ValueError set
by the wrapper (parse failure, dimension or type error, shape error) or the NULL
passed on from a failed conversion. -/
def Outcome.isError {α : Type} : Outcome α → Bool
  | Outcome.valueError _ => true
  | Outcome.conversionError => true
  | _ => false

/-- The numpy and CPython services whose result depends on more than their
arguments; a wrapper either branches on the result or uses it unchecked. -/
structure Numpy where
  /-- PyArray_FROM_OTF(obj, NPY_DOUBLE, NPY_IN_ARRAY): a contiguous aligned
  double array for obj, or none for NULL. -/
  FROM_OTF : PyArrayObject → Option PyArrayObject
  /-- Whether PyArray_FromDims, called in the given world for the given dimensions,
  obtains its memory and is not stopped by its deprecation warning. -/
  allocates : World → List Int → Bool
  /-- Whether Py_BuildValue("(OO)", eta, xi), called in the given world, obtains its
  tuple. -/
  builds : World → Bool

/-- PyArray_FromDims(nd, d, type): a new zero-filled array of the given shape at a
fresh address; NULL when a dimension is negative, when the memory cannot be had or
when the deprecation warning of the function is raised as an error. -/
def PyArray_FromDims (np : Numpy) (nd : Nat) (d : List Int) (type : Int) (w : World) :
    Option PyArrayObject × World :=
  if (d.take nd).all (fun x => decide (0 ≤ x)) && np.allocates w (d.take nd) then
    let arr : PyArrayObject :=
      { data := w.next, dimensions := (d.take nd).map Int.toNat, type_num := type }
    (some arr, { next := w.next + 1, trace := w.trace ++ [Event.newArray arr] })
  else
    (none, w)

/-- PyArray_Return: an array of one or more dimensions is handed back as it is. -/
def PyArray_Return (a : PyArrayObject) : PyArrayObject := a

/-- The operator || of C on operands that may be undefined: the right operand is
evaluated only when the left one is false. -/
def cor (a b : Except UB Bool) : Except UB Bool :=
  match a with
  | Except.error e => Except.error e
  | Except.ok true => Except.ok true
  | Except.ok false => b

/-- The test PyArray_DIM(o, i) != v. -/
def dimNe (o : PyArrayObject) (i : Nat) (v : Int) : Except UB Bool :=
  match PyArray_DIM o i with
  | Except.ok d => Except.ok (d != v)
  | Except.error e => Except.error e

def msgParse : String := "Error parsing arguments."

def msgDims : String := "Argument dimensions or types not correct."

def msgShapes : String := "Argument shapes not correct."

/-! ## integratetransit -/

def kwlist_integratetransit : List String :=
  ["planetx", "planety", "z", "p", "ootflux0", "r", "f", "spotx", "spoty",
   "spotradius", "spotcontrast", "planetangle"]

/-- The twelve values bound by a successful
PyArg_ParseTupleAndKeywords(args, kwds, "OOOddOOOOOOO", kwlist, ...). -/
structure IntegratetransitArgs where
  planetx_obj : PyArrayObject
  planety_obj : PyArrayObject
  z_obj : PyArrayObject
  p : Double
  ootflux0 : Double
  r_obj : PyArrayObject
  f_obj : PyArrayObject
  spotx_obj : PyArrayObject
  spoty_obj : PyArrayObject
  spotradius_obj : PyArrayObject
  spotcontrast_obj : PyArrayObject
  planetangle_obj : PyArrayObject
deriving DecidableEq, Repr

/-- The condition of the if at line 173 ("Check argument dimensions and types"). -/
def integratetransit_badDims (a : IntegratetransitArgs) : Bool :=
  PyArray_NDIM a.planetx_obj != 1 || PyArray_NDIM a.planety_obj != 1
    || PyArray_NDIM a.z_obj != 1 || PyArray_NDIM a.r_obj != 1
    || PyArray_NDIM a.f_obj != 1 || PyArray_NDIM a.spotx_obj != 1
    || PyArray_NDIM a.spoty_obj != 1 || PyArray_NDIM a.spotradius_obj != 1
    || PyArray_NDIM a.spotcontrast_obj != 1 || PyArray_NDIM a.planetangle_obj != 2
    || PyArray_TYPE a.planetx_obj != PyArray_DOUBLE
    || PyArray_TYPE a.planety_obj != PyArray_DOUBLE
    || PyArray_TYPE a.z_obj != PyArray_DOUBLE
    || PyArray_TYPE a.r_obj != PyArray_DOUBLE
    || PyArray_TYPE a.f_obj != PyArray_DOUBLE
    || PyArray_TYPE a.spotx_obj != PyArray_DOUBLE
    || PyArray_TYPE a.spoty_obj != PyArray_DOUBLE
    || PyArray_TYPE a.spotradius_obj != PyArray_DOUBLE
    || PyArray_TYPE a.spotcontrast_obj != PyArray_DOUBLE
    || PyArray_TYPE a.planetangle_obj != PyArray_DOUBLE

/-- The condition of the if at line 184 ("Check argument shapes"), with the
left-to-right short-circuit evaluation of C. -/
def integratetransit_badShapes (a : IntegratetransitArgs) (m n k : Int) : Except UB Bool :=
  cor (dimNe a.planety_obj 0 m) <|
  cor (dimNe a.z_obj 0 m) <|
  cor (dimNe a.f_obj 0 n) <|
  cor (dimNe a.spoty_obj 0 k) <|
  cor (dimNe a.spotradius_obj 0 k) <|
  cor (dimNe a.spotcontrast_obj 0 k) <|
  cor (dimNe a.planetangle_obj 0 m) <|
  dimNe a.planetangle_obj 1 n

/-- Lines 189-247: conversion of the ten inputs, creation of the answer array,
the call of the core and the return. The result of PyArray_FromDims is used
unchecked: answer->data on a NULL answer is a NULL dereference. -/
def integratetransit_call (np : Numpy) (a : IntegratetransitArgs) (m n k : Int) (w : World) :
    Outcome PyArrayObject × World :=
  match np.FROM_OTF a.planetx_obj, np.FROM_OTF a.planety_obj, np.FROM_OTF a.z_obj,
      np.FROM_OTF a.r_obj, np.FROM_OTF a.f_obj, np.FROM_OTF a.spotx_obj,
      np.FROM_OTF a.spoty_obj, np.FROM_OTF a.spotradius_obj,
      np.FROM_OTF a.spotcontrast_obj, np.FROM_OTF a.planetangle_obj with
  | some planetx_array, some planety_array, some z_array, some r_array, some f_array,
      some spotx_array, some spoty_array, some spotradius_array, some spotcontrast_array,
      some planetangle_array =>
    match PyArray_FromDims np 1 [m] NPY_DOUBLE w with
    | (none, w1) => (Outcome.undefined UB.nullDeref, w1)
    | (some answer, w1) =>
      (Outcome.ok (PyArray_Return answer),
        { w1 with trace := w1.trace ++ [Event.integratetransit m n k
            (PyArray_DATA planetx_array) (PyArray_DATA planety_array) (PyArray_DATA z_array)
            a.p a.ootflux0 (PyArray_DATA r_array) (PyArray_DATA f_array)
            (PyArray_DATA spotx_array) (PyArray_DATA spoty_array)
            (PyArray_DATA spotradius_array) (PyArray_DATA spotcontrast_array)
            (PyArray_DATA planetangle_array) answer.data] })
  | _, _, _, _, _, _, _, _, _, _ => (Outcome.conversionError, w)

/-- The function integratetransit_wrapper; parsed is the result of
PyArg_ParseTupleAndKeywords, none when it reports failure. -/
def integratetransit_wrapper (np : Numpy) (parsed : Option IntegratetransitArgs) (w : World) :
    Outcome PyArrayObject × World :=
  match parsed with
  | none => (Outcome.valueError msgParse, w)
  | some a =>
    if integratetransit_badDims a then (Outcome.valueError msgDims, w)
    else
      match PyArray_DIM a.planetx_obj 0, PyArray_DIM a.r_obj 0, PyArray_DIM a.spotx_obj 0 with
      | Except.ok dm, Except.ok dn, Except.ok dk =>
        let m := toCInt dm
        let n := toCInt dn
        let k := toCInt dk
        match integratetransit_badShapes a m n k with
        | Except.error e => (Outcome.undefined e, w)
        | Except.ok true => (Outcome.valueError msgShapes, w)
        | Except.ok false => integratetransit_call np a m n k w
      | Except.error e, _, _ => (Outcome.undefined e, w)
      | _, Except.error e, _ => (Outcome.undefined e, w)
      | _, _, Except.error e => (Outcome.undefined e, w)

/-! ## elements -/

def kwlist_elements : List String := ["deltaT", "period", "a", "k", "h"]

/-- The five values bound by a successful
PyArg_ParseTupleAndKeywords(args, kwds, "Odddd", kwlist, ...). -/
structure ElementsArgs where
  deltaT_obj : PyArrayObject
  period : Double
  a : Double
  k : Double
  h : Double
deriving DecidableEq, Repr

/-- Lines 274-306 of elements_wrapper: conversion of deltaT, creation of eta and
xi, the call of the core and the tuple built by Py_BuildValue("(OO)", eta, xi).
Both arrays are requested before either is used, and both results are used
unchecked: eta->data or xi->data on a NULL pointer is a NULL dereference. The
result of Py_BuildValue is returned as it is, NULL included. -/
def elements_call (np : Numpy) (x : ElementsArgs) (n : Int) (w : World) :
    Outcome (PyArrayObject × PyArrayObject) × World :=
  match np.FROM_OTF x.deltaT_obj with
  | none => (Outcome.conversionError, w)
  | some deltaT_array =>
    match PyArray_FromDims np 1 [n] NPY_DOUBLE w with
    | (eta_new, w1) =>
      match PyArray_FromDims np 1 [n] NPY_DOUBLE w1 with
      | (xi_new, w2) =>
        match eta_new, xi_new with
        | some eta, some xi =>
          let w3 : World :=
            { w2 with trace := w2.trace ++ [Event.elements (PyArray_DATA deltaT_array)
                x.period x.a x.k x.h n eta.data xi.data] }
          if np.builds w3 then (Outcome.ok (eta, xi), w3) else (Outcome.buildError, w3)
        | _, _ => (Outcome.undefined UB.nullDeref, w2)

/-- The function elements_wrapper; parsed is the result of
PyArg_ParseTupleAndKeywords, none when it reports failure. -/
def elements_wrapper (np : Numpy) (parsed : Option ElementsArgs) (w : World) :
    Outcome (PyArrayObject × PyArrayObject) × World :=
  match parsed with
  | none => (Outcome.valueError msgParse, w)
  | some x =>
    if PyArray_NDIM x.deltaT_obj != 1 || PyArray_TYPE x.deltaT_obj != PyArray_DOUBLE then
      (Outcome.valueError msgDims, w)
    else
      match PyArray_DIM x.deltaT_obj 0 with
      | Except.error e => (Outcome.undefined e, w)
      | Except.ok dn => elements_call np x (toCInt dn) w

/-! ## circleangle and ellipseangle -/

def kwlist_circleangle : List String := ["r", "p", "z"]

def kwlist_ellipseangle : List String := ["r", "a", "z"]

/-- The three values bound by a successful
PyArg_ParseTupleAndKeywords(args, kwds, "Odd", kwlist, ...) in circleangle_wrapper. -/
structure CircleangleArgs where
  r_obj : PyArrayObject
  p : Double
  z : Double
deriving DecidableEq, Repr

/-- The three values bound by a successful
PyArg_ParseTupleAndKeywords(args, kwds, "Odd", kwlist, ...) in ellipseangle_wrapper. -/
structure EllipseangleArgs where
  r_obj : PyArrayObject
  a : Double
  z : Double
deriving DecidableEq, Repr

/-- Lines 333-355 of circleangle_wrapper: conversion of r, creation of the answer
array, the call of the core and the return. The result of PyArray_FromDims is used
unchecked: answer->data on a NULL answer is a NULL dereference. -/
def circleangle_call (np : Numpy) (x : CircleangleArgs) (n : Int) (w : World) :
    Outcome PyArrayObject × World :=
  match np.FROM_OTF x.r_obj with
  | none => (Outcome.conversionError, w)
  | some r_array =>
    match PyArray_FromDims np 1 [n] NPY_DOUBLE w with
    | (none, w1) => (Outcome.undefined UB.nullDeref, w1)
    | (some answer, w1) =>
      (Outcome.ok (PyArray_Return answer),
        { w1 with trace := w1.trace ++ [Event.circleangle (PyArray_DATA r_array)
            x.p x.z n answer.data] })

/-- The function circleangle_wrapper; parsed is the result of
PyArg_ParseTupleAndKeywords, none when it reports failure. -/
def circleangle_wrapper (np : Numpy) (parsed : Option CircleangleArgs) (w : World) :
    Outcome PyArrayObject × World :=
  match parsed with
  | none => (Outcome.valueError msgParse, w)
  | some x =>
    if PyArray_NDIM x.r_obj != 1 || PyArray_TYPE x.r_obj != PyArray_DOUBLE then
      (Outcome.valueError msgDims, w)
    else
      match PyArray_DIM x.r_obj 0 with
      | Except.error e => (Outcome.undefined e, w)
      | Except.ok dn => circleangle_call np x (toCInt dn) w

/-- Lines 382-404 of ellipseangle_wrapper: conversion of r, creation of the answer
array, the call of the core and the return. The result of PyArray_FromDims is used
unchecked: answer->data on a NULL answer is a NULL dereference. -/
def ellipseangle_call (np : Numpy) (x : EllipseangleArgs) (n : Int) (w : World) :
    Outcome PyArrayObject × World :=
  match np.FROM_OTF x.r_obj with
  | none => (Outcome.conversionError, w)
  | some r_array =>
    match PyArray_FromDims np 1 [n] NPY_DOUBLE w with
    | (none, w1) => (Outcome.undefined UB.nullDeref, w1)
    | (some answer, w1) =>
      (Outcome.ok (PyArray_Return answer),
        { w1 with trace := w1.trace ++ [Event.ellipseangle (PyArray_DATA r_array)
            x.a x.z n answer.data] })

/-- The function ellipseangle_wrapper; parsed is the result of
PyArg_ParseTupleAndKeywords, none when it reports failure. -/
def ellipseangle_wrapper (np : Numpy) (parsed : Option EllipseangleArgs) (w : World) :
    Outcome PyArrayObject × World :=
  match parsed with
  | none => (Outcome.valueError msgParse, w)
  | some x =>
    if PyArray_NDIM x.r_obj != 1 || PyArray_TYPE x.r_obj != PyArray_DOUBLE then
      (Outcome.valueError msgDims, w)
    else
      match PyArray_DIM x.r_obj 0 with
      | Except.error e => (Outcome.undefined e, w)
      | Except.ok dn => ellipseangle_call np x (toCInt dn) w

/-! ## Vocabulary of the statements -/

/-- The nine arguments of integratetransit documented as one-dimensional. -/
def IntegratetransitArgs.vectors (a : IntegratetransitArgs) : List PyArrayObject :=
  [a.planetx_obj, a.planety_obj, a.z_obj, a.r_obj, a.f_obj, a.spotx_obj, a.spoty_obj,
   a.spotradius_obj, a.spotcontrast_obj]

/-- The ten array arguments of integratetransit. -/
def IntegratetransitArgs.arrays (a : IntegratetransitArgs) : List PyArrayObject :=
  a.vectors ++ [a.planetangle_obj]

/-- Every dimension of the array is a value of C int. -/
def fitsInt (o : PyArrayObject) : Prop := ∀ d ∈ o.dimensions, (d : Int) ≤ INT_MAX

instance (o : PyArrayObject) : Decidable (fitsInt o) := by
  unfold fitsInt; infer_instance

/-- The names of the data-model table of section 3 of the specification. -/
def section3_names : List String :=
  ["planetx", "planety", "z", "p", "r", "f", "ootflux0", "spotx", "spoty", "spotradius",
   "spotcontrast", "planetangle", "answer"]

/-- The keyword names of the four wrappers taken together. -/
def kwlist_all : List String :=
  kwlist_integratetransit ++ kwlist_elements ++ kwlist_circleangle ++ kwlist_ellipseangle

/-- An environment that hands every array back unchanged and grants every request. -/
def npSame : Numpy :=
  { FROM_OTF := fun o => some o, allocates := fun _ _ => true, builds := fun _ => true }

/-- An environment in which every conversion fails. -/
def npFail : Numpy :=
  { FROM_OTF := fun _ => none, allocates := fun _ _ => true, builds := fun _ => true }

/-- An environment in which no new array can be had. -/
def npNoMemory : Numpy :=
  { FROM_OTF := fun o => some o, allocates := fun _ _ => false, builds := fun _ => true }

/-- An environment in which no tuple can be had. -/
def npNoTuple : Numpy :=
  { FROM_OTF := fun o => some o, allocates := fun _ _ => true, builds := fun _ => false }

/-- An empty world whose first free address is 100. -/
def w0 : World := { next := 100, trace := [] }

/-- A double array of the given shape at the given address. -/
def dbl (addr : Nat) (shape : List Nat) : PyArrayObject :=
  { data := addr, dimensions := shape, type_num := 12 }

/-- What the checks of a wrapper can see of an array: its shape and its type number. -/
def PyArrayObject.layout (o : PyArrayObject) : List Nat × Int := (o.dimensions, o.type_num)

/-- Two calls of integratetransit whose ten arrays agree, argument by argument, on
the number of dimensions, the shape and the element type. -/
def sameLayout (a b : IntegratetransitArgs) : Prop :=
  a.arrays.map PyArrayObject.layout = b.arrays.map PyArrayObject.layout

instance (a b : IntegratetransitArgs) : Decidable (sameLayout a b) := by
  unfold sameLayout; infer_instance

/-- Every one of the ten conversions of PyArray_FROM_OTF succeeds. -/
def converts (np : Numpy) (a : IntegratetransitArgs) : Prop :=
  ∀ o ∈ a.arrays, (np.FROM_OTF o).isSome = true

instance (np : Numpy) (a : IntegratetransitArgs) : Decidable (converts np a) := by
  unfold converts; infer_instance

/-! ## Sample inputs -/

/-- A well-shaped call: m = 5 samples, n = 3 annuli, k = 2 spots. -/
def argsGood : IntegratetransitArgs :=
  { planetx_obj := dbl 1 [5], planety_obj := dbl 2 [5], z_obj := dbl 3 [5],
    p := ⟨1⟩, ootflux0 := ⟨2⟩, r_obj := dbl 4 [3], f_obj := dbl 5 [3],
    spotx_obj := dbl 6 [2], spoty_obj := dbl 7 [2], spotradius_obj := dbl 8 [2],
    spotcontrast_obj := dbl 9 [2], planetangle_obj := dbl 10 [5, 3] }

/-- The call argsGood with planetx replaced by an array of 2^32 + 5 elements. -/
def argsLong : IntegratetransitArgs := { argsGood with planetx_obj := dbl 1 [4294967301] }

/-- The call argsGood with planety one element short. -/
def argsShort : IntegratetransitArgs := { argsGood with planety_obj := dbl 2 [4] }

/-- The call argsGood with a two-dimensional planetx and a short planety. -/
def argsFlat : IntegratetransitArgs :=
  { argsGood with planetx_obj := dbl 1 [5, 1], planety_obj := dbl 2 [4] }

/-- The call argsGood with other addresses and other scalars. -/
def argsOther : IntegratetransitArgs :=
  { planetx_obj := dbl 21 [5], planety_obj := dbl 22 [5], z_obj := dbl 23 [5],
    p := ⟨7⟩, ootflux0 := ⟨9⟩, r_obj := dbl 24 [3], f_obj := dbl 25 [3],
    spotx_obj := dbl 26 [2], spoty_obj := dbl 27 [2], spotradius_obj := dbl 28 [2],
    spotcontrast_obj := dbl 29 [2], planetangle_obj := dbl 30 [5, 3] }

/-- A call of elements on five times. -/
def elemGood : ElementsArgs :=
  { deltaT_obj := dbl 1 [5], period := ⟨1⟩, a := ⟨2⟩, k := ⟨3⟩, h := ⟨4⟩ }

/-- A call of elements on 2^32 + 5 times. -/
def elemLong : ElementsArgs := { elemGood with deltaT_obj := dbl 1 [4294967301] }

/-- A call of elements on 2^31 times. -/
def elemHuge : ElementsArgs := { elemGood with deltaT_obj := dbl 1 [2147483648] }

/-- A call of elements on a two-dimensional array. -/
def elemFlat : ElementsArgs := { elemGood with deltaT_obj := dbl 1 [5, 1] }

/-- A call of circleangle on five radii. -/
def circGood : CircleangleArgs := { r_obj := dbl 1 [5], p := ⟨1⟩, z := ⟨2⟩ }

/-- A call of circleangle on 2^32 + 5 radii. -/
def circLong : CircleangleArgs := { circGood with r_obj := dbl 1 [4294967301] }

/-- A call of circleangle on a two-dimensional array. -/
def circFlat : CircleangleArgs := { circGood with r_obj := dbl 1 [5, 1] }

/-- A call of ellipseangle on five radii. -/
def ellGood : EllipseangleArgs := { r_obj := dbl 1 [5], a := ⟨1⟩, z := ⟨2⟩ }

/-- A call of ellipseangle on 2^32 + 5 radii. -/
def ellLong : EllipseangleArgs := { ellGood with r_obj := dbl 1 [4294967301] }

/-- A call of ellipseangle on a two-dimensional array. -/
def ellFlat : EllipseangleArgs := { ellGood with r_obj := dbl 1 [5, 1] }

theorem cast_eq_two (k : Nat) : ((k : Int) = 2) ↔ k = 2 := by omega

theorem badDims_false_iff (a : IntegratetransitArgs) :
    integratetransit_badDims a = false ↔
      ((∀ o ∈ a.vectors, o.dimensions.length = 1) ∧ a.planetangle_obj.dimensions.length = 2
        ∧ ∀ o ∈ a.arrays, o.type_num = NPY_DOUBLE) := by
  simp [integratetransit_badDims, PyArray_NDIM, PyArray_TYPE, PyArray_DOUBLE,
    IntegratetransitArgs.vectors, IntegratetransitArgs.arrays, cast_eq_two]
  tauto

theorem toCInt_of_fits (x : Nat) (h : (x : Int) ≤ INT_MAX) : toCInt (x : Int) = (x : Int) := by
  unfold INT_MAX at h
  unfold toCInt
  rw [if_pos ⟨by omega, h⟩]

theorem length_one {l : List Nat} (h : l.length = 1) : ∃ x, l = [x] := by
  match l, h with
  | [x], _ => exact ⟨x, rfl⟩

theorem length_two {l : List Nat} (h : l.length = 2) : ∃ x y, l = [x, y] := by
  match l, h with
  | [x, y], _ => exact ⟨x, y, rfl⟩

theorem cor_ok (b : Bool) (x : Except UB Bool) :
    cor (Except.ok b) x = if b then Except.ok true else x := by
  cases b <;> rfl

theorem dimNe_zero_cons (o : PyArrayObject) (d : Nat) (t : List Nat) (v : Int)
    (h : o.dimensions = d :: t) : dimNe o 0 v = Except.ok ((d : Int) != v) := by
  simp [dimNe, PyArray_DIM, h]

theorem dimNe_one_cons (o : PyArrayObject) (c d : Nat) (t : List Nat) (v : Int)
    (h : o.dimensions = c :: d :: t) : dimNe o 1 v = Except.ok ((d : Int) != v) := by
  simp [dimNe, PyArray_DIM, h]

theorem badShapes_eq (a : IntegratetransitArgs) (m n k : Int)
    (py zz ff sy sr sc p0 p1 : Nat)
    (h1 : a.planety_obj.dimensions = [py]) (h2 : a.z_obj.dimensions = [zz])
    (h3 : a.f_obj.dimensions = [ff]) (h4 : a.spoty_obj.dimensions = [sy])
    (h5 : a.spotradius_obj.dimensions = [sr]) (h6 : a.spotcontrast_obj.dimensions = [sc])
    (h7 : a.planetangle_obj.dimensions = [p0, p1]) :
    integratetransit_badShapes a m n k =
      Except.ok (decide (¬ ((py : Int) = m ∧ (zz : Int) = m ∧ (ff : Int) = n ∧ (sy : Int) = k
        ∧ (sr : Int) = k ∧ (sc : Int) = k ∧ (p0 : Int) = m ∧ (p1 : Int) = n))) := by
  unfold integratetransit_badShapes
  rw [dimNe_zero_cons _ _ _ _ h1, dimNe_zero_cons _ _ _ _ h2, dimNe_zero_cons _ _ _ _ h3,
    dimNe_zero_cons _ _ _ _ h4, dimNe_zero_cons _ _ _ _ h5, dimNe_zero_cons _ _ _ _ h6,
    dimNe_zero_cons _ _ _ _ h7, dimNe_one_cons _ _ _ _ _ h7]
  simp only [cor_ok]
  split_ifs <;> simp_all [bne, beq_eq_decide]

theorem call_ne_valueError (np : Numpy) (a : IntegratetransitArgs) (m n k : Int) (w : World)
    (msg : String) : (integratetransit_call np a m n k w).1 ≠ Outcome.valueError msg := by
  unfold integratetransit_call
  split
  · split <;> simp
  · simp

theorem call_error_world (np : Numpy) (a : IntegratetransitArgs) (m n k : Int) (w : World)
    (h : (integratetransit_call np a m n k w).1.isError = true) :
    (integratetransit_call np a m n k w).2 = w := by
  unfold integratetransit_call at h ⊢
  split at h
  · split at h <;> simp [Outcome.isError] at h
  · rfl

theorem FromDims_one (np : Numpy) (n : Int) (t : Int) (w : World) (h : 0 ≤ n)
    (ha : np.allocates w [n] = true) :
    PyArray_FromDims np 1 [n] t w =
      (some { data := w.next, dimensions := [n.toNat], type_num := t },
        { next := w.next + 1,
          trace := w.trace ++ [Event.newArray
            { data := w.next, dimensions := [n.toNat], type_num := t }] }) := by
  simp [PyArray_FromDims, h, ha]

theorem FromDims_none (np : Numpy) (n : Int) (t : Int) (w : World)
    (h : ¬ (0 ≤ n ∧ np.allocates w [n] = true)) :
    PyArray_FromDims np 1 [n] t w = (none, w) := by
  by_cases hn : 0 ≤ n
  · have ha : np.allocates w [n] = false := by
      cases hv : np.allocates w [n] with
      | false => rfl
      | true => exact absurd ⟨hn, hv⟩ h
    simp [PyArray_FromDims, hn, ha]
  · simp [PyArray_FromDims, hn]

theorem good_shapes (a : IntegratetransitArgs) (h : integratetransit_badDims a = false) :
    ∃ m py zz n ff k sy sr sc p0 p1,
      a.planetx_obj.dimensions = [m] ∧ a.planety_obj.dimensions = [py]
      ∧ a.z_obj.dimensions = [zz] ∧ a.r_obj.dimensions = [n] ∧ a.f_obj.dimensions = [ff]
      ∧ a.spotx_obj.dimensions = [k] ∧ a.spoty_obj.dimensions = [sy]
      ∧ a.spotradius_obj.dimensions = [sr] ∧ a.spotcontrast_obj.dimensions = [sc]
      ∧ a.planetangle_obj.dimensions = [p0, p1] := by
  obtain ⟨hv, hp, -⟩ := (badDims_false_iff a).mp h
  simp only [IntegratetransitArgs.vectors, List.forall_mem_cons] at hv
  obtain ⟨h1, h2, h3, h4, h5, h6, h7, h8, h9, -⟩ := hv
  obtain ⟨m, hm⟩ := length_one h1
  obtain ⟨py, hpy⟩ := length_one h2
  obtain ⟨zz, hzz⟩ := length_one h3
  obtain ⟨n, hn⟩ := length_one h4
  obtain ⟨ff, hff⟩ := length_one h5
  obtain ⟨k, hk⟩ := length_one h6
  obtain ⟨sy, hsy⟩ := length_one h7
  obtain ⟨sr, hsr⟩ := length_one h8
  obtain ⟨sc, hsc⟩ := length_one h9
  obtain ⟨p0, p1, hpa⟩ := length_two hp
  exact ⟨m, py, zz, n, ff, k, sy, sr, sc, p0, p1, hm, hpy, hzz, hn, hff, hk, hsy, hsr, hsc, hpa⟩

theorem wrapper_bad (np : Numpy) (a : IntegratetransitArgs) (w : World)
    (h : integratetransit_badDims a = true) :
    integratetransit_wrapper np (some a) w = (Outcome.valueError msgDims, w) := by
  simp [integratetransit_wrapper, h]

theorem wrapper_good (np : Numpy) (a : IntegratetransitArgs) (w : World)
    (h : integratetransit_badDims a = false)
    (m py zz n ff k sy sr sc p0 p1 : Nat)
    (hm : a.planetx_obj.dimensions = [m]) (h1 : a.planety_obj.dimensions = [py])
    (h2 : a.z_obj.dimensions = [zz]) (hn : a.r_obj.dimensions = [n])
    (h3 : a.f_obj.dimensions = [ff]) (hk : a.spotx_obj.dimensions = [k])
    (h4 : a.spoty_obj.dimensions = [sy])
    (h5 : a.spotradius_obj.dimensions = [sr]) (h6 : a.spotcontrast_obj.dimensions = [sc])
    (h7 : a.planetangle_obj.dimensions = [p0, p1]) :
    integratetransit_wrapper np (some a) w =
      if ((py : Int) = toCInt m ∧ (zz : Int) = toCInt m ∧ (ff : Int) = toCInt n
        ∧ (sy : Int) = toCInt k ∧ (sr : Int) = toCInt k ∧ (sc : Int) = toCInt k
        ∧ (p0 : Int) = toCInt m ∧ (p1 : Int) = toCInt n) then
        integratetransit_call np a (toCInt m) (toCInt n) (toCInt k) w
      else (Outcome.valueError msgShapes, w) := by
  have hb := badShapes_eq a (toCInt m) (toCInt n) (toCInt k) py zz ff sy sr sc p0 p1
    h1 h2 h3 h4 h5 h6 h7
  by_cases hc : ((py : Int) = toCInt m ∧ (zz : Int) = toCInt m ∧ (ff : Int) = toCInt n
        ∧ (sy : Int) = toCInt k ∧ (sr : Int) = toCInt k ∧ (sc : Int) = toCInt k
        ∧ (p0 : Int) = toCInt m ∧ (p1 : Int) = toCInt n)
  · rw [if_pos hc]
    rw [show decide (¬ _) = false from decide_eq_false (not_not.mpr hc)] at hb
    simp [integratetransit_wrapper, h, PyArray_DIM, hm, hn, hk, hb]
  · rw [if_neg hc]
    rw [show decide (¬ _) = true from decide_eq_true hc] at hb
    simp [integratetransit_wrapper, h, PyArray_DIM, hm, hn, hk, hb]

theorem call_ok (np : Numpy) (a : IntegratetransitArgs) (m n k : Int) (w : World)
    (px py zz rr ff sx sy sr sc pa : PyArrayObject) (hm : 0 ≤ m)
    (ha : np.allocates w [m] = true)
    (c1 : np.FROM_OTF a.planetx_obj = some px) (c2 : np.FROM_OTF a.planety_obj = some py)
    (c3 : np.FROM_OTF a.z_obj = some zz) (c4 : np.FROM_OTF a.r_obj = some rr)
    (c5 : np.FROM_OTF a.f_obj = some ff) (c6 : np.FROM_OTF a.spotx_obj = some sx)
    (c7 : np.FROM_OTF a.spoty_obj = some sy) (c8 : np.FROM_OTF a.spotradius_obj = some sr)
    (c9 : np.FROM_OTF a.spotcontrast_obj = some sc)
    (c10 : np.FROM_OTF a.planetangle_obj = some pa) :
    integratetransit_call np a m n k w =
      (Outcome.ok { data := w.next, dimensions := [m.toNat], type_num := NPY_DOUBLE },
        { next := w.next + 1,
          trace := w.trace ++
            [Event.newArray { data := w.next, dimensions := [m.toNat], type_num := NPY_DOUBLE },
             Event.integratetransit m n k px.data py.data zz.data a.p a.ootflux0 rr.data ff.data
               sx.data sy.data sr.data sc.data pa.data w.next] }) := by
  simp [integratetransit_call, c1, c2, c3, c4, c5, c6, c7, c8, c9, c10,
    FromDims_one np _ _ _ hm ha, PyArray_Return, PyArray_DATA]

theorem call_cases (np : Numpy) (a : IntegratetransitArgs) (m n k : Int) (w : World) :
    integratetransit_call np a m n k w = (Outcome.conversionError, w)
    ∨ (¬ (0 ≤ m ∧ np.allocates w [m] = true)
        ∧ integratetransit_call np a m n k w = (Outcome.undefined UB.nullDeref, w))
    ∨ ((0 ≤ m ∧ np.allocates w [m] = true) ∧ ∃ px py zz rr ff sx sy sr sc pa,
        np.FROM_OTF a.planetx_obj = some px ∧ np.FROM_OTF a.planety_obj = some py
        ∧ np.FROM_OTF a.z_obj = some zz ∧ np.FROM_OTF a.r_obj = some rr
        ∧ np.FROM_OTF a.f_obj = some ff ∧ np.FROM_OTF a.spotx_obj = some sx
        ∧ np.FROM_OTF a.spoty_obj = some sy ∧ np.FROM_OTF a.spotradius_obj = some sr
        ∧ np.FROM_OTF a.spotcontrast_obj = some sc ∧ np.FROM_OTF a.planetangle_obj = some pa) := by
  by_cases hc : ∃ px py zz rr ff sx sy sr sc pa,
        np.FROM_OTF a.planetx_obj = some px ∧ np.FROM_OTF a.planety_obj = some py
        ∧ np.FROM_OTF a.z_obj = some zz ∧ np.FROM_OTF a.r_obj = some rr
        ∧ np.FROM_OTF a.f_obj = some ff ∧ np.FROM_OTF a.spotx_obj = some sx
        ∧ np.FROM_OTF a.spoty_obj = some sy ∧ np.FROM_OTF a.spotradius_obj = some sr
        ∧ np.FROM_OTF a.spotcontrast_obj = some sc ∧ np.FROM_OTF a.planetangle_obj = some pa
  · by_cases hm : 0 ≤ m ∧ np.allocates w [m] = true
    · exact Or.inr (Or.inr ⟨hm, hc⟩)
    · obtain ⟨px, py, zz, rr, ff, sx, sy, sr, sc, pa, c1, c2, c3, c4, c5, c6, c7, c8, c9, c10⟩ := hc
      refine Or.inr (Or.inl ⟨hm, ?_⟩)
      simp [integratetransit_call, c1, c2, c3, c4, c5, c6, c7, c8, c9, c10,
        FromDims_none np _ _ _ hm]
  · left
    unfold integratetransit_call
    split
    · rename_i px py zz rr ff sx sy sr sc pa c1 c2 c3 c4 c5 c6 c7 c8 c9 c10
      exact absurd ⟨px, py, zz, rr, ff, sx, sy, sr, sc, pa, c1, c2, c3, c4, c5, c6, c7, c8, c9, c10⟩ hc
    · rfl

theorem wrapper_good_cases (np : Numpy) (a : IntegratetransitArgs) (w : World)
    (h : integratetransit_badDims a = false) :
    integratetransit_wrapper np (some a) w = (Outcome.valueError msgShapes, w)
    ∨ ∃ m n k, integratetransit_wrapper np (some a) w = integratetransit_call np a m n k w := by
  obtain ⟨m, py, zz, n, ff, k, sy, sr, sc, p0, p1, hm, h1, h2, hn, h3, hk, h4, h5, h6, h7⟩ :=
    good_shapes a h
  rw [wrapper_good np a w h m py zz n ff k sy sr sc p0 p1 hm h1 h2 hn h3 hk h4 h5 h6 h7]
  split_ifs
  · exact Or.inr ⟨_, _, _, rfl⟩
  · exact Or.inl rfl

theorem msgShapes_ne_msgDims : msgShapes ≠ msgDims := by decide

theorem msgParse_ne_msgDims : msgParse ≠ msgDims := by decide

/-- C1: when the arguments of integratetransit parse, the wrapper raises
"Argument dimensions or types not correct." if and only if one of the nine vector
arguments is not one-dimensional, or planetangle is not two-dimensional, or one of
the ten arrays has an element type other than double. -/
theorem integratetransit_dims_error_iff (np : Numpy) (a : IntegratetransitArgs) (w : World) :
    (integratetransit_wrapper np (some a) w).1 = Outcome.valueError msgDims ↔
      ((∃ o ∈ a.vectors, o.dimensions.length ≠ 1) ∨ a.planetangle_obj.dimensions.length ≠ 2
        ∨ ∃ o ∈ a.arrays, o.type_num ≠ NPY_DOUBLE) := by
  by_cases h : integratetransit_badDims a = true
  · rw [wrapper_bad np a w h]
    refine ⟨fun _ => ?_, fun _ => rfl⟩
    by_contra hne
    push_neg at hne
    have := (badDims_false_iff a).mpr hne
    rw [h] at this
    exact Bool.noConfusion this
  · have h0 : integratetransit_badDims a = false := by simpa using h
    have hg := (badDims_false_iff a).mp h0
    constructor
    · intro hl
      exfalso
      rcases wrapper_good_cases np a w h0 with hs | ⟨m, n, k, hc⟩
      · rw [hs] at hl
        exact msgShapes_ne_msgDims (Outcome.valueError.inj hl)
      · rw [hc] at hl
        exact call_ne_valueError np a m n k w msgDims hl
    · intro hr
      exfalso
      rcases hr with ⟨o, ho, hne⟩ | hne | ⟨o, ho, hne⟩
      · exact hne (hg.1 o ho)
      · exact hne hg.2.1
      · exact hne (hg.2.2 o ho)

/-- C2: for a call of integratetransit that parses and passes the dimension and
type check, with every array length a value of C int, and with m, n, k the lengths
of planetx, r, spotx: the wrapper raises "Argument shapes not correct." if and only
if it is not the case that planety and z have length m, f has length n, spoty,
spotradius and spotcontrast have length k and planetangle has shape (m, n). -/
theorem integratetransit_shape_error_iff (np : Numpy) (a : IntegratetransitArgs) (w : World)
    (m n k : Nat) (hcheck : integratetransit_badDims a = false)
    (hfit : ∀ o ∈ a.arrays, fitsInt o)
    (hm : a.planetx_obj.dimensions = [m]) (hn : a.r_obj.dimensions = [n])
    (hk : a.spotx_obj.dimensions = [k]) :
    (integratetransit_wrapper np (some a) w).1 = Outcome.valueError msgShapes ↔
      ¬ (a.planety_obj.dimensions = [m] ∧ a.z_obj.dimensions = [m]
        ∧ a.f_obj.dimensions = [n] ∧ a.spoty_obj.dimensions = [k]
        ∧ a.spotradius_obj.dimensions = [k] ∧ a.spotcontrast_obj.dimensions = [k]
        ∧ a.planetangle_obj.dimensions = [m, n]) := by
  obtain ⟨m', py, zz, n', ff, k', sy, sr, sc, p0, p1, hm', h1, h2, hn', h3, hk', h4, h5, h6, h7⟩ :=
    good_shapes a hcheck
  have fm : toCInt (m : Int) = (m : Int) :=
    toCInt_of_fits m (hfit a.planetx_obj (by simp [IntegratetransitArgs.arrays,
      IntegratetransitArgs.vectors]) m (by simp [hm]))
  have fn : toCInt (n : Int) = (n : Int) :=
    toCInt_of_fits n (hfit a.r_obj (by simp [IntegratetransitArgs.arrays,
      IntegratetransitArgs.vectors]) n (by simp [hn]))
  have fk : toCInt (k : Int) = (k : Int) :=
    toCInt_of_fits k (hfit a.spotx_obj (by simp [IntegratetransitArgs.arrays,
      IntegratetransitArgs.vectors]) k (by simp [hk]))
  rw [wrapper_good np a w hcheck m py zz n ff k sy sr sc p0 p1 hm h1 h2 hn h3 hk h4 h5 h6 h7,
    fm, fn, fk, h1, h2, h3, h4, h5, h6, h7]
  split_ifs with hc
  · constructor
    · intro hl
      exact absurd hl (call_ne_valueError np a _ _ _ w msgShapes)
    · intro hr
      exfalso
      apply hr
      obtain ⟨e1, e2, e3, e4, e5, e6, e7, e8⟩ := hc
      simp only [Nat.cast_inj] at e1 e2 e3 e4 e5 e6 e7 e8
      subst e1 e2 e3 e4 e5 e6 e7 e8
      simp
  · refine ⟨fun _ => ?_, fun _ => rfl⟩
    intro hall
    apply hc
    simp only [List.cons.injEq, and_true] at hall
    obtain ⟨e1, e2, e3, e4, e5, e6, e7, e8⟩ := hall
    subst e1 e2 e3 e4 e5 e6 e7 e8
    simp

theorem integratetransit_shape_error_iff_witness :
    (integratetransit_badDims argsShort = false ∧ (∀ o ∈ argsShort.arrays, fitsInt o))
    ∧ ((integratetransit_wrapper npSame (some argsShort) w0).1 = Outcome.valueError msgShapes ↔
      ¬ (argsShort.planety_obj.dimensions = [5] ∧ argsShort.z_obj.dimensions = [5]
        ∧ argsShort.f_obj.dimensions = [3] ∧ argsShort.spoty_obj.dimensions = [2]
        ∧ argsShort.spotradius_obj.dimensions = [2] ∧ argsShort.spotcontrast_obj.dimensions = [2]
        ∧ argsShort.planetangle_obj.dimensions = [5, 3])) :=
  ⟨⟨by decide, by decide⟩,
    integratetransit_shape_error_iff npSame argsShort w0 5 3 2 (by decide) (by decide)
      rfl rfl rfl⟩

theorem integratetransit_error_world (np : Numpy) (parsed : Option IntegratetransitArgs)
    (w : World) (h : (integratetransit_wrapper np parsed w).1.isError = true) :
    (integratetransit_wrapper np parsed w).2 = w := by
  cases parsed with
  | none => rfl
  | some a =>
    by_cases hb : integratetransit_badDims a = true
    · rw [wrapper_bad np a w hb]
    · have h0 : integratetransit_badDims a = false := by simpa using hb
      rcases wrapper_good_cases np a w h0 with hs | ⟨m, n, k, hc⟩
      · rw [hs]
      · rw [hc] at h ⊢
        exact call_error_world np a m n k w h

theorem call_ne_dimOutOfRange (np : Numpy) (a : IntegratetransitArgs) (m n k : Int)
    (w : World) :
    (integratetransit_call np a m n k w).1 ≠ Outcome.undefined UB.dimOutOfRange := by
  rcases call_cases np a m n k w with h | ⟨-, h⟩ | ⟨hm, px, py, zz, rr, ff, sx, sy, sr, sc, pa,
    c1, c2, c3, c4, c5, c6, c7, c8, c9, c10⟩
  · rw [h]; simp
  · rw [h]; simp
  · rw [call_ok np a m n k w px py zz rr ff sx sy sr sc pa hm.1 hm.2 c1 c2 c3 c4 c5 c6 c7 c8 c9
      c10]
    simp

theorem integratetransit_no_dimOutOfRange (np : Numpy) (parsed : Option IntegratetransitArgs)
    (w : World) :
    (integratetransit_wrapper np parsed w).1 ≠ Outcome.undefined UB.dimOutOfRange := by
  cases parsed with
  | none => simp [integratetransit_wrapper]
  | some a =>
    by_cases hb : integratetransit_badDims a = true
    · rw [wrapper_bad np a w hb]; simp
    · have h0 : integratetransit_badDims a = false := by simpa using hb
      rcases wrapper_good_cases np a w h0 with hs | ⟨m, n, k, hc⟩
      · rw [hs]; simp
      · rw [hc]
        exact call_ne_dimOutOfRange np a m n k w

theorem call_passes (np : Numpy) (a : IntegratetransitArgs) (m n k : Int) (w : World)
    (hm : 0 ≤ m) (hc : converts np a) :
    (integratetransit_call np a m n k w).1.isError = false
    ∧ ((∀ d, np.allocates w d = true) →
        ∃ v, (integratetransit_call np a m n k w).1 = Outcome.ok v) := by
  simp only [converts, IntegratetransitArgs.arrays, IntegratetransitArgs.vectors,
    List.cons_append, List.nil_append, List.forall_mem_cons, Option.isSome_iff_exists] at hc
  obtain ⟨⟨px, c1⟩, ⟨py, c2⟩, ⟨zz, c3⟩, ⟨rr, c4⟩, ⟨ff, c5⟩, ⟨sx, c6⟩, ⟨sy, c7⟩, ⟨sr, c8⟩,
    ⟨sc, c9⟩, ⟨pa, c10⟩, -⟩ := hc
  by_cases ha : np.allocates w [m] = true
  · rw [call_ok np a m n k w px py zz rr ff sx sy sr sc pa hm ha c1 c2 c3 c4 c5 c6 c7 c8 c9 c10]
    exact ⟨rfl, fun _ => ⟨_, rfl⟩⟩
  · have hnone : integratetransit_call np a m n k w = (Outcome.undefined UB.nullDeref, w) := by
      simp [integratetransit_call, c1, c2, c3, c4, c5, c6, c7, c8, c9, c10,
        FromDims_none np m _ w (fun h => ha h.2)]
    rw [hnone]
    exact ⟨rfl, fun hall => absurd (hall [m]) ha⟩

theorem sameLayout_fields (a b : IntegratetransitArgs) (h : sameLayout a b) :
    (a.planetx_obj.dimensions = b.planetx_obj.dimensions
      ∧ a.planety_obj.dimensions = b.planety_obj.dimensions
      ∧ a.z_obj.dimensions = b.z_obj.dimensions ∧ a.r_obj.dimensions = b.r_obj.dimensions
      ∧ a.f_obj.dimensions = b.f_obj.dimensions
      ∧ a.spotx_obj.dimensions = b.spotx_obj.dimensions
      ∧ a.spoty_obj.dimensions = b.spoty_obj.dimensions
      ∧ a.spotradius_obj.dimensions = b.spotradius_obj.dimensions
      ∧ a.spotcontrast_obj.dimensions = b.spotcontrast_obj.dimensions
      ∧ a.planetangle_obj.dimensions = b.planetangle_obj.dimensions)
    ∧ integratetransit_badDims a = integratetransit_badDims b := by
  simp only [sameLayout, IntegratetransitArgs.arrays, IntegratetransitArgs.vectors,
    PyArrayObject.layout, List.cons_append, List.nil_append, List.map_cons, List.map_nil,
    List.cons.injEq, Prod.mk.injEq, and_true] at h
  obtain ⟨⟨d1, t1⟩, ⟨d2, t2⟩, ⟨d3, t3⟩, ⟨d4, t4⟩, ⟨d5, t5⟩, ⟨d6, t6⟩, ⟨d7, t7⟩, ⟨d8, t8⟩,
    ⟨d9, t9⟩, ⟨d10, t10⟩⟩ := h
  refine ⟨⟨d1, d2, d3, d4, d5, d6, d7, d8, d9, d10⟩, ?_⟩
  simp only [integratetransit_badDims, PyArray_NDIM, PyArray_TYPE, d1, d2, d3, d4, d5, d6, d7,
    d8, d9, d10, t1, t2, t3, t4, t5, t6, t7, t8, t9, t10]

/-- C4: two parsed calls of integratetransit whose arrays agree on number of
dimensions, element type and shape, and whose array conversions succeed, are either
both rejected with the same error message or both accepted, that is, neither is
rejected and each returns its answer whenever numpy grants it the answer array;
this holds whatever the data pointers (hence element values), the scalars p and
ootflux0, the environments and the worlds are. -/
theorem integratetransit_decision_layout_only (np np' : Numpy) (a a' : IntegratetransitArgs)
    (w w' : World) (hsame : sameLayout a a') (hc : converts np a) (hc' : converts np' a') :
    (∃ msg, (integratetransit_wrapper np (some a) w).1 = Outcome.valueError msg
        ∧ (integratetransit_wrapper np' (some a') w').1 = Outcome.valueError msg)
    ∨ (((integratetransit_wrapper np (some a) w).1.isError = false
          ∧ ((∀ d, np.allocates w d = true) →
              ∃ v, (integratetransit_wrapper np (some a) w).1 = Outcome.ok v))
        ∧ ((integratetransit_wrapper np' (some a') w').1.isError = false
          ∧ ((∀ d, np'.allocates w' d = true) →
              ∃ v', (integratetransit_wrapper np' (some a') w').1 = Outcome.ok v'))) := by
  obtain ⟨⟨d1, d2, d3, d4, d5, d6, d7, d8, d9, d10⟩, hb⟩ := sameLayout_fields a a' hsame
  by_cases h : integratetransit_badDims a = true
  · left
    refine ⟨msgDims, ?_, ?_⟩
    · rw [wrapper_bad np a w h]
    · rw [wrapper_bad np' a' w' (hb ▸ h)]
  · have h0 : integratetransit_badDims a = false := by simpa using h
    have h0' : integratetransit_badDims a' = false := hb ▸ h0
    obtain ⟨m, py, zz, n, ff, k, sy, sr, sc, p0, p1, hm, h1, h2, hn, h3, hk, h4, h5, h6, h7⟩ :=
      good_shapes a h0
    rw [wrapper_good np a w h0 m py zz n ff k sy sr sc p0 p1 hm h1 h2 hn h3 hk h4 h5 h6 h7,
      wrapper_good np' a' w' h0' m py zz n ff k sy sr sc p0 p1 (d1 ▸ hm) (d2 ▸ h1) (d3 ▸ h2)
        (d4 ▸ hn) (d5 ▸ h3) (d6 ▸ hk) (d7 ▸ h4) (d8 ▸ h5) (d9 ▸ h6) (d10 ▸ h7)]
    split_ifs with hs
    · right
      have hm0 : 0 ≤ toCInt (m : Int) := by rw [← hs.1]; exact Int.natCast_nonneg py
      exact ⟨call_passes np a _ _ _ w hm0 hc, call_passes np' a' _ _ _ w' hm0 hc'⟩
    · left
      exact ⟨msgShapes, rfl, rfl⟩

theorem integratetransit_decision_layout_only_witness :
    (sameLayout argsGood argsOther ∧ converts npSame argsGood ∧ converts npSame argsOther)
    ∧ ((∃ msg, (integratetransit_wrapper npSame (some argsGood) w0).1 = Outcome.valueError msg
        ∧ (integratetransit_wrapper npSame (some argsOther) ⟨7, []⟩).1
          = Outcome.valueError msg)
    ∨ (((integratetransit_wrapper npSame (some argsGood) w0).1.isError = false
          ∧ ((∀ d, npSame.allocates w0 d = true) →
              ∃ v, (integratetransit_wrapper npSame (some argsGood) w0).1 = Outcome.ok v))
        ∧ ((integratetransit_wrapper npSame (some argsOther) ⟨7, []⟩).1.isError = false
          ∧ ((∀ d, npSame.allocates ⟨7, []⟩ d = true) →
              ∃ v', (integratetransit_wrapper npSame (some argsOther) ⟨7, []⟩).1
                = Outcome.ok v')))) :=
  ⟨⟨by decide, by decide, by decide⟩,
    integratetransit_decision_layout_only npSame npSame argsGood argsOther w0 ⟨7, []⟩
      (by decide) (by decide) (by decide)⟩

/-- C5, the code at the failing input: planetx has 2^32 + 5 elements while planety
and z have 5 and planetangle has 5 rows. Line 179 narrows the length of planetx to
m = 5, so the shape check of line 184 passes although the lengths differ; the core is
called with m = 5 and the answer has 5 elements, not the length of planetx. The
same check rejects a planety of 4 elements beside a planetx of 5. -/
theorem integratetransit_long_planetx_accepted :
    argsLong.planetx_obj.dimensions = [4294967301]
    ∧ argsLong.planety_obj.dimensions = [5]
    ∧ (integratetransit_wrapper npSame (some argsLong) w0).1 = Outcome.ok (dbl 100 [5])
    ∧ (integratetransit_wrapper npSame (some argsLong) w0).2.trace =
        [Event.newArray (dbl 100 [5]),
         Event.integratetransit 5 3 2 1 2 3 ⟨1⟩ ⟨2⟩ 4 5 6 7 8 9 10 100]
    ∧ (dbl 100 [5]).dimensions ≠ argsLong.planetx_obj.dimensions
    ∧ (integratetransit_wrapper npSame (some argsShort) w0).1
        = Outcome.valueError msgShapes := by
  decide

/-- Where the narrowing of line 179 to 181 loses nothing, an accepted call is as
documented: when the lengths of planetx, r and spotx are values of C int and the
wrapper returns an answer, it has created one array, called the core exactly once
with m, n, k the lengths of planetx, r, spotx, with p and ootflux0 unchanged and
with the buffers of the ten inputs in the order planetx, planety, z, (p, ootflux0,)
r, f, spotx, spoty, spotradius, spotcontrast, planetangle, and the answer is that
new one-dimensional double array of length m, whose buffer is the last argument of
the core call. -/
theorem integratetransit_accept_call (np : Numpy) (a : IntegratetransitArgs) (w : World)
    (ans : PyArrayObject)
    (hfit : fitsInt a.planetx_obj ∧ fitsInt a.r_obj ∧ fitsInt a.spotx_obj)
    (hacc : (integratetransit_wrapper np (some a) w).1 = Outcome.ok ans) :
    ∃ m n k px py zz rr ff sx sy sr sc pa,
      a.planetx_obj.dimensions = [m] ∧ a.r_obj.dimensions = [n]
      ∧ a.spotx_obj.dimensions = [k]
      ∧ np.FROM_OTF a.planetx_obj = some px ∧ np.FROM_OTF a.planety_obj = some py
      ∧ np.FROM_OTF a.z_obj = some zz ∧ np.FROM_OTF a.r_obj = some rr
      ∧ np.FROM_OTF a.f_obj = some ff ∧ np.FROM_OTF a.spotx_obj = some sx
      ∧ np.FROM_OTF a.spoty_obj = some sy ∧ np.FROM_OTF a.spotradius_obj = some sr
      ∧ np.FROM_OTF a.spotcontrast_obj = some sc ∧ np.FROM_OTF a.planetangle_obj = some pa
      ∧ ans = { data := w.next, dimensions := [m], type_num := NPY_DOUBLE }
      ∧ (integratetransit_wrapper np (some a) w).2 =
          { next := w.next + 1,
            trace := w.trace ++
              [Event.newArray ans,
               Event.integratetransit (m : Int) (n : Int) (k : Int)
                 (PyArray_DATA px) (PyArray_DATA py) (PyArray_DATA zz) a.p a.ootflux0
                 (PyArray_DATA rr) (PyArray_DATA ff) (PyArray_DATA sx) (PyArray_DATA sy)
                 (PyArray_DATA sr) (PyArray_DATA sc) (PyArray_DATA pa) (PyArray_DATA ans)] } := by
  by_cases hb : integratetransit_badDims a = true
  · rw [wrapper_bad np a w hb] at hacc
    simp at hacc
  · have h0 : integratetransit_badDims a = false := by simpa using hb
    obtain ⟨m, py, zz, n, ff, k, sy, sr, sc, p0, p1, hm, h1, h2, hn, h3, hk, h4, h5, h6, h7⟩ :=
      good_shapes a h0
    have fm : toCInt (m : Int) = (m : Int) := toCInt_of_fits m (hfit.1 m (by simp [hm]))
    have fn : toCInt (n : Int) = (n : Int) := toCInt_of_fits n (hfit.2.1 n (by simp [hn]))
    have fk : toCInt (k : Int) = (k : Int) := toCInt_of_fits k (hfit.2.2 k (by simp [hk]))
    rw [wrapper_good np a w h0 m py zz n ff k sy sr sc p0 p1 hm h1 h2 hn h3 hk h4 h5 h6 h7,
      fm, fn, fk] at hacc ⊢
    split_ifs at hacc ⊢ with hs
    · rcases call_cases np a (m : Int) (n : Int) (k : Int) w with h | ⟨-, h⟩
        | ⟨hm0, px, qy, qz, rr, qf, sx, qsy, qsr, qsc, pa, c1, c2, c3, c4, c5, c6, c7, c8, c9, c10⟩
      · rw [h] at hacc; simp at hacc
      · rw [h] at hacc; simp at hacc
      · have hcall := call_ok np a (m : Int) (n : Int) (k : Int) w px qy qz rr qf sx qsy qsr qsc pa
          hm0.1 hm0.2 c1 c2 c3 c4 c5 c6 c7 c8 c9 c10
        rw [hcall] at hacc ⊢
        simp only [Int.toNat_ofNat, Outcome.ok.injEq] at hacc
        subst hacc
        exact ⟨m, n, k, px, qy, qz, rr, qf, sx, qsy, qsr, qsc, pa, hm, hn, hk, c1, c2, c3, c4, c5,
          c6, c7, c8, c9, c10, rfl, by simp [PyArray_DATA]⟩

theorem integratetransit_accept_call_witness :
    (fitsInt argsGood.planetx_obj ∧ fitsInt argsGood.r_obj ∧ fitsInt argsGood.spotx_obj)
    ∧ (integratetransit_wrapper npSame (some argsGood) w0).1 = Outcome.ok (dbl 100 [5])
    ∧ ∃ m n k px py zz rr ff sx sy sr sc pa,
      argsGood.planetx_obj.dimensions = [m] ∧ argsGood.r_obj.dimensions = [n]
      ∧ argsGood.spotx_obj.dimensions = [k]
      ∧ npSame.FROM_OTF argsGood.planetx_obj = some px
      ∧ npSame.FROM_OTF argsGood.planety_obj = some py
      ∧ npSame.FROM_OTF argsGood.z_obj = some zz ∧ npSame.FROM_OTF argsGood.r_obj = some rr
      ∧ npSame.FROM_OTF argsGood.f_obj = some ff ∧ npSame.FROM_OTF argsGood.spotx_obj = some sx
      ∧ npSame.FROM_OTF argsGood.spoty_obj = some sy
      ∧ npSame.FROM_OTF argsGood.spotradius_obj = some sr
      ∧ npSame.FROM_OTF argsGood.spotcontrast_obj = some sc
      ∧ npSame.FROM_OTF argsGood.planetangle_obj = some pa
      ∧ dbl 100 [5] = { data := w0.next, dimensions := [m], type_num := NPY_DOUBLE }
      ∧ (integratetransit_wrapper npSame (some argsGood) w0).2 =
          { next := w0.next + 1,
            trace := w0.trace ++
              [Event.newArray (dbl 100 [5]),
               Event.integratetransit (m : Int) (n : Int) (k : Int)
                 (PyArray_DATA px) (PyArray_DATA py) (PyArray_DATA zz) argsGood.p
                 argsGood.ootflux0 (PyArray_DATA rr) (PyArray_DATA ff) (PyArray_DATA sx)
                 (PyArray_DATA sy) (PyArray_DATA sr) (PyArray_DATA sc) (PyArray_DATA pa)
                 (PyArray_DATA (dbl 100 [5]))] } :=
  ⟨by decide, by decide,
    integratetransit_accept_call npSame argsGood w0 (dbl 100 [5]) (by decide) (by decide)⟩

/-! ## The one-array wrappers -/

theorem vec_check_iff (o : PyArrayObject) :
    (PyArray_NDIM o != 1 || PyArray_TYPE o != PyArray_DOUBLE) = true ↔
      (o.dimensions.length ≠ 1 ∨ o.type_num ≠ NPY_DOUBLE) := by
  simp [PyArray_NDIM, PyArray_TYPE, PyArray_DOUBLE]

theorem vec_check_false (o : PyArrayObject) (n : Nat) (hd : o.dimensions = [n])
    (ht : o.type_num = NPY_DOUBLE) :
    (PyArray_NDIM o != 1 || PyArray_TYPE o != PyArray_DOUBLE) = false := by
  simp [PyArray_NDIM, PyArray_TYPE, PyArray_DOUBLE, hd, ht]

theorem vec_check_false_shape (o : PyArrayObject)
    (h : (PyArray_NDIM o != 1 || PyArray_TYPE o != PyArray_DOUBLE) = false) :
    ∃ n, o.dimensions = [n] ∧ o.type_num = NPY_DOUBLE := by
  have h1 : o.dimensions.length = 1 ∧ o.type_num = NPY_DOUBLE := by
    simpa [PyArray_NDIM, PyArray_TYPE, PyArray_DOUBLE] using h
  obtain ⟨n, hn⟩ := length_one h1.1
  exact ⟨n, hn, h1.2⟩

theorem elements_bad (np : Numpy) (x : ElementsArgs) (w : World)
    (h : (PyArray_NDIM x.deltaT_obj != 1 || PyArray_TYPE x.deltaT_obj != PyArray_DOUBLE) = true) :
    elements_wrapper np (some x) w = (Outcome.valueError msgDims, w) := by
  simp only [elements_wrapper, h, if_true]

theorem elements_good (np : Numpy) (x : ElementsArgs) (w : World) (n : Nat)
    (hd : x.deltaT_obj.dimensions = [n]) (ht : x.deltaT_obj.type_num = NPY_DOUBLE) :
    elements_wrapper np (some x) w = elements_call np x (toCInt n) w := by
  simp [elements_wrapper, vec_check_false _ n hd ht, PyArray_DIM, hd]

theorem elements_call_none (np : Numpy) (x : ElementsArgs) (n : Int) (w : World)
    (hconv : np.FROM_OTF x.deltaT_obj = none) :
    elements_call np x n w = (Outcome.conversionError, w) := by
  simp [elements_call, hconv]

theorem elements_call_ok (np : Numpy) (x : ElementsArgs) (n : Int) (w : World)
    (arr : PyArrayObject) (hconv : np.FROM_OTF x.deltaT_obj = some arr) (hn : 0 ≤ n)
    (hA : ∀ w1 d, np.allocates w1 d = true) (hB : ∀ w1, np.builds w1 = true) :
    elements_call np x n w =
      (Outcome.ok
        ({ data := w.next, dimensions := [n.toNat], type_num := NPY_DOUBLE },
         { data := w.next + 1, dimensions := [n.toNat], type_num := NPY_DOUBLE }),
        { next := w.next + 2,
          trace := w.trace ++
            [Event.newArray { data := w.next, dimensions := [n.toNat], type_num := NPY_DOUBLE },
             Event.newArray
               { data := w.next + 1, dimensions := [n.toNat], type_num := NPY_DOUBLE },
             Event.elements arr.data x.period x.a x.k x.h n w.next (w.next + 1)] }) := by
  simp [elements_call, hconv, FromDims_one np _ _ _ hn (hA _ _), hB, PyArray_DATA]

theorem elements_call_cases (np : Numpy) (x : ElementsArgs) (n : Int) (w : World) :
    elements_call np x n w = (Outcome.conversionError, w)
    ∨ (∃ w1, elements_call np x n w = (Outcome.undefined UB.nullDeref, w1))
    ∨ (∃ v w1, elements_call np x n w = (Outcome.ok v, w1))
    ∨ (∃ w1, elements_call np x n w = (Outcome.buildError, w1)) := by
  cases hconv : np.FROM_OTF x.deltaT_obj with
  | none => exact Or.inl (elements_call_none np x n w hconv)
  | some arr =>
    right
    simp only [elements_call, hconv]
    rcases PyArray_FromDims np 1 [n] NPY_DOUBLE w with ⟨eta_new, w1⟩
    rcases PyArray_FromDims np 1 [n] NPY_DOUBLE w1 with ⟨xi_new, w2⟩
    cases eta_new with
    | none => exact Or.inl ⟨w2, rfl⟩
    | some eta =>
      cases xi_new with
      | none => exact Or.inl ⟨w2, rfl⟩
      | some xi =>
        by_cases hb : np.builds
            { w2 with trace := w2.trace ++ [Event.elements (PyArray_DATA arr)
                x.period x.a x.k x.h n eta.data xi.data] } = true
        · refine Or.inr (Or.inl ⟨(eta, xi), { w2 with trace := w2.trace ++
            [Event.elements (PyArray_DATA arr) x.period x.a x.k x.h n eta.data xi.data] }, ?_⟩)
          simp [hb]
        · refine Or.inr (Or.inr ⟨{ w2 with trace := w2.trace ++
            [Event.elements (PyArray_DATA arr) x.period x.a x.k x.h n eta.data xi.data] }, ?_⟩)
          simp [hb]

theorem circleangle_bad (np : Numpy) (x : CircleangleArgs) (w : World)
    (h : (PyArray_NDIM x.r_obj != 1 || PyArray_TYPE x.r_obj != PyArray_DOUBLE) = true) :
    circleangle_wrapper np (some x) w = (Outcome.valueError msgDims, w) := by
  simp only [circleangle_wrapper, h, if_true]

theorem circleangle_good (np : Numpy) (x : CircleangleArgs) (w : World) (n : Nat)
    (hd : x.r_obj.dimensions = [n]) (ht : x.r_obj.type_num = NPY_DOUBLE) :
    circleangle_wrapper np (some x) w = circleangle_call np x (toCInt n) w := by
  simp [circleangle_wrapper, vec_check_false _ n hd ht, PyArray_DIM, hd]

theorem circleangle_call_none (np : Numpy) (x : CircleangleArgs) (n : Int) (w : World)
    (hconv : np.FROM_OTF x.r_obj = none) :
    circleangle_call np x n w = (Outcome.conversionError, w) := by
  simp [circleangle_call, hconv]

theorem circleangle_call_null (np : Numpy) (x : CircleangleArgs) (n : Int) (w : World)
    (arr : PyArrayObject) (hconv : np.FROM_OTF x.r_obj = some arr)
    (hn : ¬ (0 ≤ n ∧ np.allocates w [n] = true)) :
    circleangle_call np x n w = (Outcome.undefined UB.nullDeref, w) := by
  simp [circleangle_call, hconv, FromDims_none np _ _ _ hn]

theorem circleangle_call_ok (np : Numpy) (x : CircleangleArgs) (n : Int) (w : World)
    (arr : PyArrayObject) (hconv : np.FROM_OTF x.r_obj = some arr) (hn : 0 ≤ n)
    (ha : np.allocates w [n] = true) :
    circleangle_call np x n w =
      (Outcome.ok { data := w.next, dimensions := [n.toNat], type_num := NPY_DOUBLE },
        { next := w.next + 1,
          trace := w.trace ++
            [Event.newArray { data := w.next, dimensions := [n.toNat], type_num := NPY_DOUBLE },
             Event.circleangle arr.data x.p x.z n w.next] }) := by
  simp [circleangle_call, hconv, FromDims_one np _ _ _ hn ha, PyArray_DATA, PyArray_Return]

theorem circleangle_call_cases (np : Numpy) (x : CircleangleArgs) (n : Int) (w : World) :
    circleangle_call np x n w = (Outcome.conversionError, w)
    ∨ circleangle_call np x n w = (Outcome.undefined UB.nullDeref, w)
    ∨ ∃ v w1, circleangle_call np x n w = (Outcome.ok v, w1) := by
  cases hconv : np.FROM_OTF x.r_obj with
  | none => exact Or.inl (circleangle_call_none np x n w hconv)
  | some arr =>
    by_cases hn : 0 ≤ n ∧ np.allocates w [n] = true
    · exact Or.inr (Or.inr ⟨_, _, circleangle_call_ok np x n w arr hconv hn.1 hn.2⟩)
    · exact Or.inr (Or.inl (circleangle_call_null np x n w arr hconv hn))

theorem ellipseangle_bad (np : Numpy) (x : EllipseangleArgs) (w : World)
    (h : (PyArray_NDIM x.r_obj != 1 || PyArray_TYPE x.r_obj != PyArray_DOUBLE) = true) :
    ellipseangle_wrapper np (some x) w = (Outcome.valueError msgDims, w) := by
  simp only [ellipseangle_wrapper, h, if_true]

theorem ellipseangle_good (np : Numpy) (x : EllipseangleArgs) (w : World) (n : Nat)
    (hd : x.r_obj.dimensions = [n]) (ht : x.r_obj.type_num = NPY_DOUBLE) :
    ellipseangle_wrapper np (some x) w = ellipseangle_call np x (toCInt n) w := by
  simp [ellipseangle_wrapper, vec_check_false _ n hd ht, PyArray_DIM, hd]

theorem ellipseangle_call_none (np : Numpy) (x : EllipseangleArgs) (n : Int) (w : World)
    (hconv : np.FROM_OTF x.r_obj = none) :
    ellipseangle_call np x n w = (Outcome.conversionError, w) := by
  simp [ellipseangle_call, hconv]

theorem ellipseangle_call_null (np : Numpy) (x : EllipseangleArgs) (n : Int) (w : World)
    (arr : PyArrayObject) (hconv : np.FROM_OTF x.r_obj = some arr)
    (hn : ¬ (0 ≤ n ∧ np.allocates w [n] = true)) :
    ellipseangle_call np x n w = (Outcome.undefined UB.nullDeref, w) := by
  simp [ellipseangle_call, hconv, FromDims_none np _ _ _ hn]

theorem ellipseangle_call_ok (np : Numpy) (x : EllipseangleArgs) (n : Int) (w : World)
    (arr : PyArrayObject) (hconv : np.FROM_OTF x.r_obj = some arr) (hn : 0 ≤ n)
    (ha : np.allocates w [n] = true) :
    ellipseangle_call np x n w =
      (Outcome.ok { data := w.next, dimensions := [n.toNat], type_num := NPY_DOUBLE },
        { next := w.next + 1,
          trace := w.trace ++
            [Event.newArray { data := w.next, dimensions := [n.toNat], type_num := NPY_DOUBLE },
             Event.ellipseangle arr.data x.a x.z n w.next] }) := by
  simp [ellipseangle_call, hconv, FromDims_one np _ _ _ hn ha, PyArray_DATA, PyArray_Return]

theorem ellipseangle_call_cases (np : Numpy) (x : EllipseangleArgs) (n : Int) (w : World) :
    ellipseangle_call np x n w = (Outcome.conversionError, w)
    ∨ ellipseangle_call np x n w = (Outcome.undefined UB.nullDeref, w)
    ∨ ∃ v w1, ellipseangle_call np x n w = (Outcome.ok v, w1) := by
  cases hconv : np.FROM_OTF x.r_obj with
  | none => exact Or.inl (ellipseangle_call_none np x n w hconv)
  | some arr =>
    by_cases hn : 0 ≤ n ∧ np.allocates w [n] = true
    · exact Or.inr (Or.inr ⟨_, _, ellipseangle_call_ok np x n w arr hconv hn.1 hn.2⟩)
    · exact Or.inr (Or.inl (ellipseangle_call_null np x n w arr hconv hn))

theorem elements_error_world (np : Numpy) (parsed : Option ElementsArgs) (w : World)
    (h : (elements_wrapper np parsed w).1.isError = true) :
    (elements_wrapper np parsed w).2 = w := by
  cases parsed with
  | none => rfl
  | some x =>
    by_cases hb : (PyArray_NDIM x.deltaT_obj != 1
        || PyArray_TYPE x.deltaT_obj != PyArray_DOUBLE) = true
    · rw [elements_bad np x w hb]
    · obtain ⟨n, hd, ht⟩ := vec_check_false_shape x.deltaT_obj (by simpa using hb)
      rw [elements_good np x w n hd ht] at h ⊢
      rcases elements_call_cases np x (toCInt n) w with hc | ⟨w1, hc⟩ | ⟨v, w1, hc⟩ | ⟨w1, hc⟩
      · rw [hc]
      · rw [hc] at h
        simp [Outcome.isError] at h
      · rw [hc] at h
        simp [Outcome.isError] at h
      · rw [hc] at h
        simp [Outcome.isError] at h

theorem elements_no_dimOutOfRange (np : Numpy) (parsed : Option ElementsArgs) (w : World) :
    (elements_wrapper np parsed w).1 ≠ Outcome.undefined UB.dimOutOfRange := by
  cases parsed with
  | none => simp [elements_wrapper]
  | some x =>
    by_cases hb : (PyArray_NDIM x.deltaT_obj != 1
        || PyArray_TYPE x.deltaT_obj != PyArray_DOUBLE) = true
    · rw [elements_bad np x w hb]; simp
    · obtain ⟨n, hd, ht⟩ := vec_check_false_shape x.deltaT_obj (by simpa using hb)
      rw [elements_good np x w n hd ht]
      rcases elements_call_cases np x (toCInt n) w with hc | ⟨w1, hc⟩ | ⟨v, w1, hc⟩ | ⟨w1, hc⟩
      · rw [hc]; simp
      · rw [hc]; simp
      · rw [hc]; simp
      · rw [hc]; simp

theorem elements_dims_error_iff (np : Numpy) (x : ElementsArgs) (w : World) :
    (elements_wrapper np (some x) w).1 = Outcome.valueError msgDims ↔
      (x.deltaT_obj.dimensions.length ≠ 1 ∨ x.deltaT_obj.type_num ≠ NPY_DOUBLE) := by
  by_cases hb : (PyArray_NDIM x.deltaT_obj != 1
      || PyArray_TYPE x.deltaT_obj != PyArray_DOUBLE) = true
  · rw [elements_bad np x w hb]
    exact ⟨fun _ => (vec_check_iff _).mp hb, fun _ => rfl⟩
  · have hne : ¬ (x.deltaT_obj.dimensions.length ≠ 1 ∨ x.deltaT_obj.type_num ≠ NPY_DOUBLE) :=
      fun h => hb ((vec_check_iff _).mpr h)
    obtain ⟨n, hd, ht⟩ := vec_check_false_shape x.deltaT_obj (by simpa using hb)
    rw [elements_good np x w n hd ht]
    refine ⟨fun h => ?_, fun h => absurd h hne⟩
    exfalso
    rcases elements_call_cases np x (toCInt n) w with hc | ⟨w1, hc⟩ | ⟨v, w1, hc⟩ | ⟨w1, hc⟩
    · rw [hc] at h; simp at h
    · rw [hc] at h; simp at h
    · rw [hc] at h; simp at h
    · rw [hc] at h; simp at h

theorem circleangle_error_world (np : Numpy) (parsed : Option CircleangleArgs) (w : World)
    (h : (circleangle_wrapper np parsed w).1.isError = true) :
    (circleangle_wrapper np parsed w).2 = w := by
  cases parsed with
  | none => rfl
  | some x =>
    by_cases hb : (PyArray_NDIM x.r_obj != 1
        || PyArray_TYPE x.r_obj != PyArray_DOUBLE) = true
    · rw [circleangle_bad np x w hb]
    · obtain ⟨n, hd, ht⟩ := vec_check_false_shape x.r_obj (by simpa using hb)
      rw [circleangle_good np x w n hd ht] at h ⊢
      rcases circleangle_call_cases np x (toCInt n) w with hc | hc | ⟨v, w1, hc⟩
      · rw [hc]
      · rw [hc]
      · rw [hc] at h
        simp [Outcome.isError] at h

theorem circleangle_no_dimOutOfRange (np : Numpy) (parsed : Option CircleangleArgs) (w : World) :
    (circleangle_wrapper np parsed w).1 ≠ Outcome.undefined UB.dimOutOfRange := by
  cases parsed with
  | none => simp [circleangle_wrapper]
  | some x =>
    by_cases hb : (PyArray_NDIM x.r_obj != 1
        || PyArray_TYPE x.r_obj != PyArray_DOUBLE) = true
    · rw [circleangle_bad np x w hb]; simp
    · obtain ⟨n, hd, ht⟩ := vec_check_false_shape x.r_obj (by simpa using hb)
      rw [circleangle_good np x w n hd ht]
      rcases circleangle_call_cases np x (toCInt n) w with hc | hc | ⟨v, w1, hc⟩
      · rw [hc]; simp
      · rw [hc]; simp
      · rw [hc]; simp

theorem circleangle_dims_error_iff (np : Numpy) (x : CircleangleArgs) (w : World) :
    (circleangle_wrapper np (some x) w).1 = Outcome.valueError msgDims ↔
      (x.r_obj.dimensions.length ≠ 1 ∨ x.r_obj.type_num ≠ NPY_DOUBLE) := by
  by_cases hb : (PyArray_NDIM x.r_obj != 1
      || PyArray_TYPE x.r_obj != PyArray_DOUBLE) = true
  · rw [circleangle_bad np x w hb]
    exact ⟨fun _ => (vec_check_iff _).mp hb, fun _ => rfl⟩
  · have hne : ¬ (x.r_obj.dimensions.length ≠ 1 ∨ x.r_obj.type_num ≠ NPY_DOUBLE) :=
      fun h => hb ((vec_check_iff _).mpr h)
    obtain ⟨n, hd, ht⟩ := vec_check_false_shape x.r_obj (by simpa using hb)
    rw [circleangle_good np x w n hd ht]
    refine ⟨fun h => ?_, fun h => absurd h hne⟩
    exfalso
    rcases circleangle_call_cases np x (toCInt n) w with hc | hc | ⟨v, w1, hc⟩
    · rw [hc] at h; simp at h
    · rw [hc] at h; simp at h
    · rw [hc] at h; simp at h

theorem ellipseangle_error_world (np : Numpy) (parsed : Option EllipseangleArgs) (w : World)
    (h : (ellipseangle_wrapper np parsed w).1.isError = true) :
    (ellipseangle_wrapper np parsed w).2 = w := by
  cases parsed with
  | none => rfl
  | some x =>
    by_cases hb : (PyArray_NDIM x.r_obj != 1
        || PyArray_TYPE x.r_obj != PyArray_DOUBLE) = true
    · rw [ellipseangle_bad np x w hb]
    · obtain ⟨n, hd, ht⟩ := vec_check_false_shape x.r_obj (by simpa using hb)
      rw [ellipseangle_good np x w n hd ht] at h ⊢
      rcases ellipseangle_call_cases np x (toCInt n) w with hc | hc | ⟨v, w1, hc⟩
      · rw [hc]
      · rw [hc]
      · rw [hc] at h
        simp [Outcome.isError] at h

theorem ellipseangle_no_dimOutOfRange (np : Numpy) (parsed : Option EllipseangleArgs) (w : World) :
    (ellipseangle_wrapper np parsed w).1 ≠ Outcome.undefined UB.dimOutOfRange := by
  cases parsed with
  | none => simp [ellipseangle_wrapper]
  | some x =>
    by_cases hb : (PyArray_NDIM x.r_obj != 1
        || PyArray_TYPE x.r_obj != PyArray_DOUBLE) = true
    · rw [ellipseangle_bad np x w hb]; simp
    · obtain ⟨n, hd, ht⟩ := vec_check_false_shape x.r_obj (by simpa using hb)
      rw [ellipseangle_good np x w n hd ht]
      rcases ellipseangle_call_cases np x (toCInt n) w with hc | hc | ⟨v, w1, hc⟩
      · rw [hc]; simp
      · rw [hc]; simp
      · rw [hc]; simp

theorem ellipseangle_dims_error_iff (np : Numpy) (x : EllipseangleArgs) (w : World) :
    (ellipseangle_wrapper np (some x) w).1 = Outcome.valueError msgDims ↔
      (x.r_obj.dimensions.length ≠ 1 ∨ x.r_obj.type_num ≠ NPY_DOUBLE) := by
  by_cases hb : (PyArray_NDIM x.r_obj != 1
      || PyArray_TYPE x.r_obj != PyArray_DOUBLE) = true
  · rw [ellipseangle_bad np x w hb]
    exact ⟨fun _ => (vec_check_iff _).mp hb, fun _ => rfl⟩
  · have hne : ¬ (x.r_obj.dimensions.length ≠ 1 ∨ x.r_obj.type_num ≠ NPY_DOUBLE) :=
      fun h => hb ((vec_check_iff _).mpr h)
    obtain ⟨n, hd, ht⟩ := vec_check_false_shape x.r_obj (by simpa using hb)
    rw [ellipseangle_good np x w n hd ht]
    refine ⟨fun h => ?_, fun h => absurd h hne⟩
    exfalso
    rcases ellipseangle_call_cases np x (toCInt n) w with hc | hc | ⟨v, w1, hc⟩
    · rw [hc] at h; simp at h
    · rw [hc] at h; simp at h
    · rw [hc] at h; simp at h

/-- C3: in each of the four wrappers, every call that ends in an error (parse
failure, dimension or type error, shape error, failed conversion) leaves the world
as it found it: the core function has not been called and no array has been created,
and no value is returned. -/
theorem wrapper_error_no_effect :
    (∀ (np : Numpy) (parsed : Option IntegratetransitArgs) (w : World),
      (integratetransit_wrapper np parsed w).1.isError = true →
        (integratetransit_wrapper np parsed w).2 = w
        ∧ ∀ v, (integratetransit_wrapper np parsed w).1 ≠ Outcome.ok v)
    ∧ (∀ (np : Numpy) (parsed : Option ElementsArgs) (w : World),
      (elements_wrapper np parsed w).1.isError = true →
        (elements_wrapper np parsed w).2 = w
        ∧ ∀ v, (elements_wrapper np parsed w).1 ≠ Outcome.ok v)
    ∧ (∀ (np : Numpy) (parsed : Option CircleangleArgs) (w : World),
      (circleangle_wrapper np parsed w).1.isError = true →
        (circleangle_wrapper np parsed w).2 = w
        ∧ ∀ v, (circleangle_wrapper np parsed w).1 ≠ Outcome.ok v)
    ∧ (∀ (np : Numpy) (parsed : Option EllipseangleArgs) (w : World),
      (ellipseangle_wrapper np parsed w).1.isError = true →
        (ellipseangle_wrapper np parsed w).2 = w
        ∧ ∀ v, (ellipseangle_wrapper np parsed w).1 ≠ Outcome.ok v) := by
  refine ⟨fun np parsed w h => ⟨integratetransit_error_world np parsed w h, ?_⟩,
    fun np parsed w h => ⟨elements_error_world np parsed w h, ?_⟩,
    fun np parsed w h => ⟨circleangle_error_world np parsed w h, ?_⟩,
    fun np parsed w h => ⟨ellipseangle_error_world np parsed w h, ?_⟩⟩ <;>
  · intro v hv
    rw [hv] at h
    simp [Outcome.isError] at h

theorem wrapper_error_no_effect_witness :
    ((integratetransit_wrapper npSame (some argsShort) w0).1.isError = true
      ∧ (integratetransit_wrapper npSame (some argsShort) w0).2 = w0)
    ∧ ((elements_wrapper npFail (some elemGood) w0).1.isError = true
      ∧ (elements_wrapper npFail (some elemGood) w0).2 = w0)
    ∧ ((circleangle_wrapper npSame (some circFlat) w0).1.isError = true
      ∧ (circleangle_wrapper npSame (some circFlat) w0).2 = w0)
    ∧ ((ellipseangle_wrapper npSame none w0).1.isError = true
      ∧ (ellipseangle_wrapper npSame none w0).2 = w0) :=
  ⟨⟨by decide, (wrapper_error_no_effect.1 npSame (some argsShort) w0 (by decide)).1⟩,
   ⟨by decide, (wrapper_error_no_effect.2.1 npFail (some elemGood) w0 (by decide)).1⟩,
   ⟨by decide, (wrapper_error_no_effect.2.2.1 npSame (some circFlat) w0 (by decide)).1⟩,
   ⟨by decide, (wrapper_error_no_effect.2.2.2 npSame none w0 (by decide)).1⟩⟩

/-- C6, the code at the failing input: deltaT has 2^32 + 5 elements. Line 272
narrows the length to n = 5; the core is called with n = 5 and eta and xi have 5
elements each, not the size of deltaT that the docstring promises. With 2^31
elements the narrowed length is negative, PyArray_FromDims returns NULL and the
unchecked eta->data is a NULL dereference. -/
theorem elements_long_deltaT_truncated :
    elemLong.deltaT_obj.dimensions = [4294967301]
    ∧ (elements_wrapper npSame (some elemLong) w0).1 = Outcome.ok (dbl 100 [5], dbl 101 [5])
    ∧ (elements_wrapper npSame (some elemLong) w0).2.trace =
        [Event.newArray (dbl 100 [5]), Event.newArray (dbl 101 [5]),
         Event.elements 1 ⟨1⟩ ⟨2⟩ ⟨3⟩ ⟨4⟩ 5 100 101]
    ∧ (dbl 100 [5]).dimensions ≠ elemLong.deltaT_obj.dimensions
    ∧ elemHuge.deltaT_obj.dimensions = [2147483648]
    ∧ (elements_wrapper npSame (some elemHuge) w0).1 = Outcome.undefined UB.nullDeref := by
  decide

/-- Where the narrowing of line 272 loses nothing and the environment grants the
conversion, the two arrays and the tuple, elements is as documented: for a
one-dimensional double deltaT of a length n that is a value of C int the wrapper
creates two arrays, calls the core once with (deltaT, period, a, k, h, n, eta, xi)
and returns the pair (eta, xi), in that order, of two distinct one-dimensional
double arrays of length n. -/
theorem elements_in_range (np : Numpy) (x : ElementsArgs) (w : World) (n : Nat)
    (arr : PyArrayObject) (hd : x.deltaT_obj.dimensions = [n])
    (ht : x.deltaT_obj.type_num = NPY_DOUBLE) (hfit : (n : Int) ≤ INT_MAX)
    (hconv : np.FROM_OTF x.deltaT_obj = some arr)
    (hA : ∀ w1 d, np.allocates w1 d = true) (hB : ∀ w1, np.builds w1 = true) :
    ∃ eta xi,
      elements_wrapper np (some x) w =
        (Outcome.ok (eta, xi),
          { next := w.next + 2,
            trace := w.trace ++ [Event.newArray eta, Event.newArray xi,
              Event.elements (PyArray_DATA arr) x.period x.a x.k x.h (n : Int)
                (PyArray_DATA eta) (PyArray_DATA xi)] })
      ∧ eta.dimensions = [n] ∧ xi.dimensions = [n]
      ∧ eta.type_num = NPY_DOUBLE ∧ xi.type_num = NPY_DOUBLE
      ∧ eta.data = w.next ∧ xi.data = w.next + 1 ∧ eta ≠ xi := by
  have fn : toCInt (n : Int) = (n : Int) := toCInt_of_fits n hfit
  rw [elements_good np x w n hd ht, fn,
    elements_call_ok np x (n : Int) w arr hconv (Int.natCast_nonneg n) hA hB]
  refine ⟨{ data := w.next, dimensions := [n], type_num := NPY_DOUBLE },
    { data := w.next + 1, dimensions := [n], type_num := NPY_DOUBLE }, ?_, rfl, rfl, rfl, rfl,
    rfl, rfl, ?_⟩
  · simp [PyArray_DATA]
  · simp

theorem elements_in_range_witness :
    ∃ eta xi,
      elements_wrapper npSame (some elemGood) w0 =
        (Outcome.ok (eta, xi),
          { next := w0.next + 2,
            trace := w0.trace ++ [Event.newArray eta, Event.newArray xi,
              Event.elements (PyArray_DATA (dbl 1 [5])) elemGood.period elemGood.a elemGood.k
                elemGood.h ((5 : Nat) : Int) (PyArray_DATA eta) (PyArray_DATA xi)] })
      ∧ eta.dimensions = [5] ∧ xi.dimensions = [5]
      ∧ eta.type_num = NPY_DOUBLE ∧ xi.type_num = NPY_DOUBLE
      ∧ eta.data = w0.next ∧ xi.data = w0.next + 1 ∧ eta ≠ xi :=
  elements_in_range npSame elemGood w0 5 (dbl 1 [5]) (by decide) (by decide) (by decide) rfl
    (fun _ _ => rfl) (fun _ => rfl)

/-- C7, the code at the failing input: r has 2^32 + 5 elements. Lines 331 and 380
narrow the length to n = 5; the core is called with n = 5 and the answer of
circleangle, and likewise of ellipseangle, has 5 elements, not the size of r that
the docstring promises. -/
theorem angle_long_r_truncated :
    circLong.r_obj.dimensions = [4294967301]
    ∧ (circleangle_wrapper npSame (some circLong) w0).1 = Outcome.ok (dbl 100 [5])
    ∧ (circleangle_wrapper npSame (some circLong) w0).2.trace =
        [Event.newArray (dbl 100 [5]), Event.circleangle 1 ⟨1⟩ ⟨2⟩ 5 100]
    ∧ (dbl 100 [5]).dimensions ≠ circLong.r_obj.dimensions
    ∧ ellLong.r_obj.dimensions = [4294967301]
    ∧ (ellipseangle_wrapper npSame (some ellLong) w0).1 = Outcome.ok (dbl 100 [5])
    ∧ (ellipseangle_wrapper npSame (some ellLong) w0).2.trace =
        [Event.newArray (dbl 100 [5]), Event.ellipseangle 1 ⟨1⟩ ⟨2⟩ 5 100]
    ∧ (dbl 100 [5]).dimensions ≠ ellLong.r_obj.dimensions := by
  decide

/-- Where the narrowing of lines 331 and 380 loses nothing and the environment
grants the conversion and the answer array, circleangle and ellipseangle are as
documented: for a one-dimensional double r of a length n that is a value of C int,
and any two scalars, the wrapper creates one array, calls the corresponding core
function once with (r, scalar1, scalar2, n, answer) and returns that
one-dimensional double array of length n. -/
theorem angle_in_range (np : Numpy) (x : CircleangleArgs) (y : EllipseangleArgs) (w : World)
    (hA : ∀ w1 d, np.allocates w1 d = true) :
    (∀ (n : Nat) (arr : PyArrayObject), x.r_obj.dimensions = [n] →
      x.r_obj.type_num = NPY_DOUBLE → (n : Int) ≤ INT_MAX →
      np.FROM_OTF x.r_obj = some arr →
      ∃ answer,
        circleangle_wrapper np (some x) w =
          (Outcome.ok answer,
            { next := w.next + 1,
              trace := w.trace ++ [Event.newArray answer,
                Event.circleangle (PyArray_DATA arr) x.p x.z (n : Int)
                  (PyArray_DATA answer)] })
        ∧ answer.dimensions = [n] ∧ answer.type_num = NPY_DOUBLE ∧ answer.data = w.next)
    ∧ (∀ (n : Nat) (arr : PyArrayObject), y.r_obj.dimensions = [n] →
      y.r_obj.type_num = NPY_DOUBLE → (n : Int) ≤ INT_MAX →
      np.FROM_OTF y.r_obj = some arr →
      ∃ answer,
        ellipseangle_wrapper np (some y) w =
          (Outcome.ok answer,
            { next := w.next + 1,
              trace := w.trace ++ [Event.newArray answer,
                Event.ellipseangle (PyArray_DATA arr) y.a y.z (n : Int)
                  (PyArray_DATA answer)] })
        ∧ answer.dimensions = [n] ∧ answer.type_num = NPY_DOUBLE ∧ answer.data = w.next) := by
  constructor
  · intro n arr hd ht hfit hconv
    have fn : toCInt (n : Int) = (n : Int) := toCInt_of_fits n hfit
    rw [circleangle_good np x w n hd ht, fn,
      circleangle_call_ok np x (n : Int) w arr hconv (Int.natCast_nonneg n) (hA _ _)]
    refine ⟨{ data := w.next, dimensions := [n], type_num := NPY_DOUBLE }, ?_, rfl, rfl, rfl⟩
    simp [PyArray_DATA]
  · intro n arr hd ht hfit hconv
    have fn : toCInt (n : Int) = (n : Int) := toCInt_of_fits n hfit
    rw [ellipseangle_good np y w n hd ht, fn,
      ellipseangle_call_ok np y (n : Int) w arr hconv (Int.natCast_nonneg n) (hA _ _)]
    refine ⟨{ data := w.next, dimensions := [n], type_num := NPY_DOUBLE }, ?_, rfl, rfl, rfl⟩
    simp [PyArray_DATA]

theorem angle_in_range_witness :
    ∃ answer,
      circleangle_wrapper npSame (some circGood) w0 =
        (Outcome.ok answer,
          { next := w0.next + 1,
            trace := w0.trace ++ [Event.newArray answer,
              Event.circleangle (PyArray_DATA (dbl 1 [5])) circGood.p circGood.z
                ((5 : Nat) : Int) (PyArray_DATA answer)] })
      ∧ answer.dimensions = [5] ∧ answer.type_num = NPY_DOUBLE ∧ answer.data = w0.next :=
  (angle_in_range npSame circGood ellGood w0 (fun _ _ => rfl)).1 5 (dbl 1 [5]) (by decide)
    (by decide) (by decide) rfl

/-- The results that the wrappers use unchecked: when PyArray_FromDims gives NULL
for want of memory, each wrapper dereferences it; when Py_BuildValue gives NULL,
elements returns NULL after the core has run on the two new arrays. -/
theorem unchecked_results :
    (integratetransit_wrapper npNoMemory (some argsGood) w0).1 = Outcome.undefined UB.nullDeref
    ∧ (elements_wrapper npNoMemory (some elemGood) w0).1 = Outcome.undefined UB.nullDeref
    ∧ (circleangle_wrapper npNoMemory (some circGood) w0).1 = Outcome.undefined UB.nullDeref
    ∧ (ellipseangle_wrapper npNoMemory (some ellGood) w0).1 = Outcome.undefined UB.nullDeref
    ∧ elements_wrapper npNoTuple (some elemGood) w0 =
        (Outcome.buildError,
          { next := 102,
            trace := [Event.newArray (dbl 100 [5]), Event.newArray (dbl 101 [5]),
              Event.elements 1 ⟨1⟩ ⟨2⟩ ⟨3⟩ ⟨4⟩ 5 100 101] }) := by
  decide

/-- C8 as stated fails: deltaT is a keyword of elements that section 3 does not
list, and answer is listed in section 3 but is a keyword of no wrapper. -/
theorem kwlist_differs_from_section3 :
    "deltaT" ∈ kwlist_all ∧ "deltaT" ∉ section3_names
    ∧ "answer" ∈ section3_names ∧ "answer" ∉ kwlist_all := by
  decide

/-- C8, amended: the keyword names of integratetransit are exactly the names of
section 3 other than answer, and the keyword names of the four wrappers together are
those names and deltaT, period, a, k, h. -/
theorem kwlist_names (s : String) :
    (s ∈ kwlist_integratetransit ↔ (s ∈ section3_names ∧ s ≠ "answer"))
    ∧ (s ∈ kwlist_all ↔
        ((s ∈ section3_names ∧ s ≠ "answer") ∨ s ∈ ["deltaT", "period", "a", "k", "h"])) := by
  constructor
  · constructor
    · intro h
      simp only [kwlist_integratetransit, List.mem_cons, List.mem_singleton, List.mem_nil_iff,
        or_false] at h
      rcases h with h | h | h | h | h | h | h | h | h | h | h | h <;> subst h <;> decide
    · rintro ⟨h, hne⟩
      simp only [section3_names, kwlist_integratetransit, List.mem_cons, List.mem_singleton,
        List.mem_nil_iff, or_false] at h ⊢
      tauto
  · constructor
    · intro h
      simp only [kwlist_all, kwlist_integratetransit, kwlist_elements, kwlist_circleangle,
        kwlist_ellipseangle, List.mem_append, List.mem_cons, List.mem_singleton,
        List.mem_nil_iff, or_false] at h
      rcases h with (((h | h | h | h | h | h | h | h | h | h | h | h) | h | h | h | h | h)
        | h | h | h) | h | h | h <;> subst h <;> decide
    · intro h
      simp only [section3_names, kwlist_all, kwlist_integratetransit, kwlist_elements,
        kwlist_circleangle, kwlist_ellipseangle, List.mem_append, List.mem_cons,
        List.mem_singleton, List.mem_nil_iff, or_false] at h ⊢
      tauto

/-- C10: no call of any of the four wrappers reads a dimension that the array does
not have: the reads of dimension 0 of the one-dimensional arguments and of
dimensions 0 and 1 of planetangle are reached only past the dimension and type
check. Consequently a call of integratetransit with a dimension or type defect raises
the dimension error, never the shape error, whatever the lengths are. -/
theorem dimension_reads_in_range :
    (∀ (np : Numpy) (parsed : Option IntegratetransitArgs) (w : World),
      (integratetransit_wrapper np parsed w).1 ≠ Outcome.undefined UB.dimOutOfRange)
    ∧ (∀ (np : Numpy) (parsed : Option ElementsArgs) (w : World),
      (elements_wrapper np parsed w).1 ≠ Outcome.undefined UB.dimOutOfRange)
    ∧ (∀ (np : Numpy) (parsed : Option CircleangleArgs) (w : World),
      (circleangle_wrapper np parsed w).1 ≠ Outcome.undefined UB.dimOutOfRange)
    ∧ (∀ (np : Numpy) (parsed : Option EllipseangleArgs) (w : World),
      (ellipseangle_wrapper np parsed w).1 ≠ Outcome.undefined UB.dimOutOfRange)
    ∧ (∀ (np : Numpy) (a : IntegratetransitArgs) (w : World),
      ((∃ o ∈ a.vectors, o.dimensions.length ≠ 1) ∨ a.planetangle_obj.dimensions.length ≠ 2
        ∨ ∃ o ∈ a.arrays, o.type_num ≠ NPY_DOUBLE) →
      (integratetransit_wrapper np (some a) w).1 = Outcome.valueError msgDims
      ∧ (integratetransit_wrapper np (some a) w).1 ≠ Outcome.valueError msgShapes) := by
  refine ⟨integratetransit_no_dimOutOfRange, elements_no_dimOutOfRange,
    circleangle_no_dimOutOfRange, ellipseangle_no_dimOutOfRange, ?_⟩
  intro np a w hdef
  have hb : integratetransit_badDims a = true := by
    by_contra hne
    have h0 : integratetransit_badDims a = false := by simpa using hne
    have hg := (badDims_false_iff a).mp h0
    rcases hdef with ⟨o, ho, hx⟩ | hx | ⟨o, ho, hx⟩
    · exact hx (hg.1 o ho)
    · exact hx hg.2.1
    · exact hx (hg.2.2 o ho)
  rw [wrapper_bad np a w hb]
  refine ⟨rfl, ?_⟩
  intro h
  exact msgShapes_ne_msgDims (Outcome.valueError.inj h).symm

theorem dimension_reads_in_range_witness :
    ((∃ o ∈ argsFlat.vectors, o.dimensions.length ≠ 1)
      ∨ argsFlat.planetangle_obj.dimensions.length ≠ 2
      ∨ ∃ o ∈ argsFlat.arrays, o.type_num ≠ NPY_DOUBLE)
    ∧ argsFlat.planety_obj.dimensions ≠ [5]
    ∧ (integratetransit_wrapper npSame (some argsFlat) w0).1 = Outcome.valueError msgDims
    ∧ (integratetransit_wrapper npSame (some argsFlat) w0).1 ≠ Outcome.valueError msgShapes :=
  ⟨by decide, by decide,
    dimension_reads_in_range.2.2.2.2 npSame argsFlat w0 (by decide)⟩

end Spotrod
